import Mathlib

/-!
Formal model of the module `qetpy/plotting/_didv_plotting.py`.

The module renders diagnostic plots for dI/dV fit results.  We give a
shallow embedding: numeric values are rationals, numpy complex entries are
pairs of rationals, matplotlib calls are recorded as a trace of plot
commands, and Python exceptions are modelled with `Except`.  The response
model functions `qp.squarewaveresponse` and `qp.complexadmittance`, the
float functions `np.abs`/`np.angle` on complex values, and the complex
exponential used for the time phase live outside this module; they are kept
abstract as components of an `Env` record, and every theorem quantifies
over `Env`.  Pure styling calls (axis labels, legends, grids, tick
parameters, log scaling) are not recorded in the trace; everything a claim
speaks about (drawn curves and markers with their values and labels, axis
limits, titles, display/save outcomes, raised exceptions) is recorded.
-/

namespace DidvPlotting

/-- Complex scalar modelled as a pair of rationals. -/
structure Cplx where
  re : ℚ
  im : ℚ
deriving DecidableEq, Repr

/-- Complex addition. -/
def cadd (a b : Cplx) : Cplx := ⟨a.re + b.re, a.im + b.im⟩

/-- Complex subtraction. -/
def csub (a b : Cplx) : Cplx := ⟨a.re - b.re, a.im - b.im⟩

/-- Complex multiplication. -/
def cmul (a b : Cplx) : Cplx :=
  ⟨a.re * b.re - a.im * b.im, a.re * b.im + a.im * b.re⟩

/-- Complex division (rational-field model of the numpy elementwise quotient). -/
def cdiv (a b : Cplx) : Cplx :=
  let d := b.re * b.re + b.im * b.im
  ⟨(a.re * b.re + a.im * b.im) / d, (a.im * b.re - a.re * b.im) / d⟩

/-- Fitted parameter dictionary of a pole fit.  The module reads only the
entry `dt`; the remaining entries are carried opaquely so that the whole
dictionary can be splatted into the response-model functions. -/
structure Params where
  dt : ℚ
  rest : List (String × ℚ)
deriving DecidableEq, Repr

/-- One pole-fit result dictionary: fitted parameters and the reported
scalar cost. -/
structure FitResult where
  params : Params
  cost : ℚ
deriving DecidableEq, Repr

/-- The externally owned fit-result container consumed by the module.
Field names follow the attributes read by the source. -/
structure DIDV where
  _time : List ℚ
  _tmean : List ℚ
  _offset : ℚ
  _freq : List ℚ
  _didvmean : List Cplx
  _didvstd : List Cplx
  _rshunt : ℚ
  _sgamp : ℚ
  _sgfreq : ℚ
  _dutycycle : ℚ
  _1poleresult : Option FitResult
  _2poleresult : Option FitResult
  _3poleresult : Option FitResult
deriving DecidableEq, Repr

/-- Modelled from the spec: the `DIDV` class (defined outside this module;
only its attributes and this accessor are consumed here) exposes the stored
per-pole fit result dictionaries, and `didv.fitresult(p)` returns the one
stored for the `p`-pole fit. -/
def DIDV.fitresult (didv : DIDV) : Nat → Option FitResult
  | 1 => didv._1poleresult
  | 2 => didv._2poleresult
  | 3 => didv._3poleresult
  | _ => none

/-- Python exceptions that the modelled code can raise. -/
inductive PyError
  | typeError
  | valueError
  | zeroDivisionError
deriving DecidableEq, Repr

/-- Value of the `poles` argument: the string `"all"`, a scalar integer, or
a list of integers. -/
inductive Poles
  | all
  | scalar (n : Int)
  | list (ns : List Int)
deriving DecidableEq, Repr

/-- Result of `np.array(poles)`: a zero-dimensional array for a scalar
argument, a one-dimensional array for a list. -/
inductive NpPoles
  | zeroDim (n : Int)
  | oneDim (ns : List Int)
deriving DecidableEq, Repr

/-- The `poleslist` computation shared by all functions: `"all"` becomes
`np.array([1, 2, 3])`, anything else goes through `np.array`. -/
def npArray : Poles → NpPoles
  | .all => .oneDim [1, 2, 3]
  | .scalar n => .zeroDim n
  | .list ns => .oneDim ns

/-- Membership test `p in poleslist` on a numpy array: numpy implements
`ndarray.__contains__` as `(arr == p).any()`, which never raises, so on a
zero-dimensional array it is the scalar equality test and on a
one-dimensional array it is list membership. -/
def npMem (p : Int) : NpPoles → Bool
  | .zeroDim n => decide (p = n)
  | .oneDim ns => decide (p ∈ ns)

/-- Boolean-mask indexing `xs[mask]` of numpy. -/
def maskFilter {α : Type} : List α → List Bool → List α
  | x :: xs, b :: bs => if b then x :: maskFilter xs bs else maskFilter xs bs
  | _, _ => []

/-- Value of Python `max` on a nonempty list. -/
def listMax : List ℚ → ℚ
  | [] => 0
  | x :: xs => xs.foldl max x

/-- Value of Python `min` on a nonempty list. -/
def listMin : List ℚ → ℚ
  | [] => 0
  | x :: xs => xs.foldl min x

/-- Python builtin `max` over a sequence: raises `ValueError` on an empty
sequence. -/
def pymax (xs : List ℚ) : Except PyError ℚ :=
  if xs.isEmpty then .error .valueError else .ok (listMax xs)

/-- Python builtin `min` over a sequence: raises `ValueError` on an empty
sequence. -/
def pymin (xs : List ℚ) : Except PyError ℚ :=
  if xs.isEmpty then .error .valueError else .ok (listMin xs)

/-- Value of `xs[0]` on a nonempty list. -/
def listHead : List ℚ → ℚ
  | [] => 0
  | x :: _ => x

/-- Value of `xs[-1]` on a nonempty list. -/
def listLastD : List ℚ → ℚ
  | [] => 0
  | [x] => x
  | _ :: x :: xs => listLastD (x :: xs)

/-- Indexing `xs[0]`: raises on an empty array. -/
def pyhead (xs : List ℚ) : Except PyError ℚ :=
  if xs.isEmpty then .error .valueError else .ok (listHead xs)

/-- Indexing `xs[-1]`: raises on an empty array. -/
def pylast (xs : List ℚ) : Except PyError ℚ :=
  if xs.isEmpty then .error .valueError else .ok (listLastD xs)

/-- Python scalar division: raises `ZeroDivisionError` on a zero divisor. -/
def pydivQ (a b : ℚ) : Except PyError ℚ :=
  if b = 0 then .error .zeroDivisionError else .ok (a / b)

/-- Recorded matplotlib effects.  `plotLine` is `ax.plot`, `scatterPts` is
`ax.scatter`; both carry x data, y data and the optional legend entry. -/
inductive PlotCmd
  | plotLine (xs ys : List ℚ) (lab : Option String)
  | scatterPts (xs ys : List ℚ) (lab : Option String)
  | setXlim (lo hi : ℚ)
  | setYlim (lo hi : ℚ)
  | setTitle (t : String)
  | saveFig (fname : String)
  | showFig
  | closeFig
deriving DecidableEq, Repr

/-- Legend entry attached to a drawn curve or marker set, if any. -/
def cmdLabel : PlotCmd → Option String
  | .plotLine _ _ l => l
  | .scatterPts _ _ l => l
  | _ => none

/-- Whether a command is one of the two terminal outcomes: an interactive
display or a written image file. -/
def isOutputCmd : PlotCmd → Bool
  | .saveFig _ => true
  | .showFig => true
  | _ => false

/-- Result of a completed call to an exported function: the recorded
effect trace, the fit-result object as left behind by the call, and the
Python return value (`none` models Python `None`). -/
structure RunResult where
  events : List PlotCmd
  state : DIDV
  ret : Option ℚ
deriving DecidableEq, Repr

/-- Abstract environment: the response-model functions and float routines
defined outside this module which the plotting code invokes pointwise. -/
structure Env where
  squarewaveresponse : List ℚ → ℚ → ℚ → ℚ → ℚ → Params → List ℚ
  complexadmittance : List ℚ → Params → List Cplx
  npabs : Cplx → ℚ
  npangle : Cplx → ℚ
  timePhase : ℚ → ℚ → Cplx

/-- Tail of every figure: `fig.savefig(...)` followed by `plt.close(fig)`
when the save flag is set, else `plt.show()`. -/
def outBlock (lgcsave : Bool) (fname : String) : List PlotCmd :=
  if lgcsave then [.saveFig fname, .closeFig] else [.showFig]

/-- Python `min` over a list of `(value, index)` tuples, with tuple
comparison lexicographic and the first minimum kept, as the source's
`min((val, ii) for ...)` computes it. -/
def pyMinPairs : List (ℚ × Nat) → Option (ℚ × Nat)
  | [] => none
  | p :: ps =>
      some (ps.foldl
        (fun best q =>
          if q.1 < best.1 ∨ (q.1 = best.1 ∧ q.2 < best.2) then q else best)
        p)

/-- The `(val, ii) for ii, val in enumerate(cost_vals) if val is not None`
generator. -/
def presentPairs (cost_vals : List (Option ℚ)) : List (ℚ × Nat) :=
  cost_vals.enum.filterMap fun q => q.2.map fun c => (c, q.1)

/-- The best-time-offset scan as written in `plot_zoomed_in_trace`
(lines 198-217): collect the costs and `dt` values of the three pole-fit
results, default to zero when all are absent, otherwise take the `dt` of
the entry winning the `min` over `(cost, index)` pairs. -/
def best_time_offset_zoomed (r1 r2 r3 : Option FitResult) : ℚ :=
  let cost_vals : List (Option ℚ) :=
    [r1.map FitResult.cost, r2.map FitResult.cost, r3.map FitResult.cost]
  let dt_vals : List (Option ℚ) :=
    [r1.map fun x => x.params.dt, r2.map fun x => x.params.dt,
      r3.map fun x => x.params.dt]
  if cost_vals.all Option.isNone then 0
  else
    match pyMinPairs (presentPairs cost_vals) with
    | some best => (dt_vals.getD best.2 none).getD 0
    | none => 0

/-- The best-time-offset scan as written in `plot_re_im_didv`
(lines 321-340); textually the same computation as in
`plot_zoomed_in_trace`. -/
def best_time_offset_re_im (r1 r2 r3 : Option FitResult) : ℚ :=
  let cost_vals : List (Option ℚ) :=
    [r1.map FitResult.cost, r2.map FitResult.cost, r3.map FitResult.cost]
  let dt_vals : List (Option ℚ) :=
    [r1.map fun x => x.params.dt, r2.map fun x => x.params.dt,
      r3.map fun x => x.params.dt]
  if cost_vals.all Option.isNone then 0
  else
    match pyMinPairs (presentPairs cost_vals) with
    | some best => (dt_vals.getD best.2 none).getD 0
    | none => 0

/-- The best-time-offset scan as written in `plot_abs_phase_didv`
(lines 550-569); textually the same computation as in
`plot_zoomed_in_trace`. -/
def best_time_offset_abs_phase (r1 r2 r3 : Option FitResult) : ℚ :=
  let cost_vals : List (Option ℚ) :=
    [r1.map FitResult.cost, r2.map FitResult.cost, r3.map FitResult.cost]
  let dt_vals : List (Option ℚ) :=
    [r1.map fun x => x.params.dt, r2.map fun x => x.params.dt,
      r3.map fun x => x.params.dt]
  if cost_vals.all Option.isNone then 0
  else
    match pyMinPairs (presentPairs cost_vals) with
    | some best => (dt_vals.getD best.2 none).getD 0
    | none => 0

/-- Legend label of the curve of the `p`-pole fit. -/
def poleLbl : Nat → String
  | 1 => "1-Pole Fit"
  | 2 => "2-Pole Fit"
  | 3 => "3-Pole Fit"
  | _ => ""

/-- Mean-trace line of `_plot_time_domain`
(`ax.plot(didv._time * 1e6, (didv._tmean - didv._offset) * 1e6, ...)`). -/
def meanLine (didv : DIDV) : PlotCmd :=
  .plotLine (didv._time.map fun t => t * 1000000)
    (didv._tmean.map fun y => (y - didv._offset) * 1000000) (some "Mean")

/-- Fit curve drawn by one guarded block of `_plot_time_domain`: the
response model evaluated on the stored time grid with the fitted
parameters, shifted in x by the fitted `dt`, both axes scaled to micro
units. -/
def tdFitCurve (env : Env) (didv : DIDV) (fr : FitResult) (lbl : String) :
    PlotCmd :=
  .plotLine (didv._time.map fun t => (t + fr.params.dt) * 1000000)
    ((env.squarewaveresponse didv._time didv._rshunt didv._sgamp didv._sgfreq
        didv._dutycycle fr.params).map fun y => y * 1000000)
    (some lbl)

/-- One guarded block of `_plot_time_domain`: skipped when the fit result
is absent; otherwise the membership test on `poleslist` runs and, when it
holds, the fit curve is drawn.  (Kept in `Except` to mirror the helper's
result type; the block itself cannot raise.) -/
def tdPoleBlock (env : Env) (didv : DIDV) (pl : NpPoles) (p : Int)
    (r : Option FitResult) (lbl : String) : Except PyError (List PlotCmd) :=
  match r with
  | none => .ok []
  | some fr =>
      if npMem p pl then .ok [tdFitCurve env didv fr lbl] else .ok []

/-- Helper for plotting the fits in time domain (`_plot_time_domain`,
lines 16-91): draws the mean trace and then the three guarded fit blocks,
and returns the figure contents together with the fit-result object. -/
def _plot_time_domain (env : Env) (didv : DIDV) (poles : Poles) :
    Except PyError (List PlotCmd × DIDV) :=
  let poleslist := npArray poles
  (tdPoleBlock env didv poleslist 1 didv._1poleresult "1-Pole Fit").bind
    fun c1 =>
  (tdPoleBlock env didv poleslist 2 didv._2poleresult "2-Pole Fit").bind
    fun c2 =>
  (tdPoleBlock env didv poleslist 3 didv._3poleresult "3-Pole Fit").bind
    fun c3 =>
  .ok ([meanLine didv] ++ c1 ++ c2 ++ c3, didv)

/-- Exported function `plot_full_trace` (lines 94-127). -/
def plot_full_trace (env : Env) (didv : DIDV) (poles : Poles)
    (lgcsave : Bool) (savepath savename : String) :
    Except PyError RunResult :=
  (_plot_time_domain env didv poles).bind fun fig =>
  (pyhead fig.2._time).bind fun t0 =>
  (pylast fig.2._time).bind fun tl =>
  .ok ⟨fig.1 ++
      [.setXlim (t0 * 1000000) (tl * 1000000),
        .setTitle "Full Trace of dIdV"] ++
      outBlock lgcsave (savepath ++ "full_trace_" ++ savename ++ ".png"),
    fig.2, none⟩

/-- Exported function `plot_single_period_of_trace` (lines 130-165). -/
def plot_single_period_of_trace (env : Env) (didv : DIDV) (poles : Poles)
    (lgcsave : Bool) (savepath savename : String) :
    Except PyError RunResult :=
  (_plot_time_domain env didv poles).bind fun fig =>
  (pydivQ 1 fig.2._sgfreq).bind fun period =>
  (pyhead fig.2._time).bind fun t0 =>
  .ok ⟨fig.1 ++
      [.setXlim (t0 * 1000000) (t0 * 1000000 + period * 1000000),
        .setTitle "Single Period of Trace"] ++
      outBlock lgcsave
        (savepath ++ "trace_one_period_" ++ savename ++ ".png"),
    fig.2, none⟩

/-- Exported function `plot_zoomed_in_trace` (lines 168-236): the period
and the best time offset are computed first, then the time-domain figure is
drawn and its x window centred at half a period past `time[0]`, shifted by
the best time offset. -/
def plot_zoomed_in_trace (env : Env) (didv : DIDV) (poles : Poles)
    (zoomfactor : ℚ) (lgcsave : Bool) (savepath savename : String) :
    Except PyError RunResult :=
  (pydivQ 1 didv._sgfreq).bind fun period =>
  let bto := best_time_offset_zoomed didv._1poleresult didv._2poleresult
    didv._3poleresult
  (_plot_time_domain env didv poles).bind fun fig =>
  (pyhead fig.2._time).bind fun t0 =>
  .ok ⟨fig.1 ++
      [.setXlim ((bto + t0 + (1 / 2 - zoomfactor / 2) * period) * 1000000)
          ((bto + t0 + (1 / 2 + zoomfactor / 2) * period) * 1000000),
        .setTitle "Zoomed In Portion of Trace"] ++
      outBlock lgcsave
        (savepath ++ "zoomed_in_trace_" ++ savename ++ ".png"),
    fig.2, none⟩

/-- Exported function `plot_didv_flipped` (lines 239-283). -/
def plot_didv_flipped (env : Env) (didv : DIDV) (poles : Poles)
    (lgcsave : Bool) (savepath savename : String) :
    Except PyError RunResult :=
  (_plot_time_domain env didv poles).bind fun fig =>
  (pydivQ 1 fig.2._sgfreq).bind fun period =>
  .ok ⟨fig.1 ++
      [.plotLine (fig.2._time.map fun t => (t - period / 2) * 1000000)
          (fig.2._tmean.map fun y => (-(y - fig.2._offset)) * 1000000)
          (some "Flipped Data"),
        .setTitle "Flipped Traces to Check Asymmetry"] ++
      outBlock lgcsave
        (savepath ++ "flipped_trace_" ++ savename ++ ".png"),
    fig.2, none⟩

/-- Mask `didv._freq > 0` restricting to physical frequencies
(`fitinds`). -/
def fitinds (didv : DIDV) : List Bool :=
  didv._freq.map fun f => decide (0 < f)

/-- Mask `np.abs(didv._didvmean / didv._didvstd) > 2.0` dropping points
with huge errors (`goodinds`). -/
def goodinds (env : Env) (didv : DIDV) : List Bool :=
  (didv._didvmean.zip didv._didvstd).map fun q =>
    decide (2 < env.npabs (cdiv q.1 q.2))

/-- Mask `np.logical_and(fitinds, goodinds)` (`plotinds`). -/
def plotinds (env : Env) (didv : DIDV) : List Bool :=
  List.zipWith (fun a b => a && b) (fitinds didv) (goodinds env didv)

/-- Elementwise `np.exp(2.0j * np.pi * best_time_offset * didv._freq)`,
through the abstract complex exponential of the environment. -/
def timePhaseArr (env : Env) (didv : DIDV) (bto : ℚ) : List Cplx :=
  didv._freq.map fun f => env.timePhase bto f

/-- Fit curve drawn by one guarded block of the frequency-domain figures:
a pointwise projection (`np.real`, `np.imag`, `np.abs` or `np.angle`) of
the complex admittance model evaluated on the stored frequency grid with
the fitted parameters, both restricted to positive frequencies. -/
def fdFitCurve (env : Env) (didv : DIDV) (fr : FitResult)
    (proj : Cplx → ℚ) (lbl : String) : PlotCmd :=
  .plotLine (maskFilter didv._freq (fitinds didv))
    (maskFilter ((env.complexadmittance didv._freq fr.params).map proj)
      (fitinds didv))
    (some lbl)

/-- One guarded block of a frequency-domain figure: skipped when the fit
result is absent; otherwise the membership test on `poleslist` runs and,
when it holds, the stored result is fetched through `didv.fitresult(p)`
and its curve drawn (subscripting a `None` result would raise
`TypeError`). -/
def fdPoleBlock (env : Env) (didv : DIDV) (pl : NpPoles) (p : Nat)
    (r : Option FitResult) (proj : Cplx → ℚ) (lbl : String) :
    Except PyError (List PlotCmd) :=
  match r with
  | none => .ok []
  | some _ =>
      if npMem (Int.ofNat p) pl then
        match didv.fitresult p with
        | some fr => .ok [fdFitCurve env didv fr proj lbl]
        | none => .error .typeError
      else .ok []

/-- One of the two figures of `plot_re_im_didv` (the real-part figure,
lines 344-427, and the imaginary-part figure, lines 429-512, differ only
in the pointwise projection, the title and the file name): scatter of the
phase-corrected mean, the two one-sigma bound lines, the three guarded fit
blocks, then the y window from the extrema of the plotted mean below
`1e5` Hz, the x window from the positive-frequency extremes, the title and
the save/show tail. -/
def reimFig (env : Env) (didv : DIDV) (pl : NpPoles) (tp : List Cplx)
    (proj : Cplx → ℚ) (ttl fname : String) (lgcsave : Bool) :
    Except PyError (List PlotCmd) :=
  let pinds := plotinds env didv
  let fi := fitinds didv
  let meanVals := (didv._didvmean.zip tp).map fun q => proj (cmul q.1 q.2)
  let hiVals :=
    (((didv._didvmean.zip didv._didvstd).map fun q => cadd q.1 q.2).zip
      tp).map fun q => proj (cmul q.1 q.2)
  let loVals :=
    (((didv._didvmean.zip didv._didvstd).map fun q => csub q.1 q.2).zip
      tp).map fun q => proj (cmul q.1 q.2)
  (fdPoleBlock env didv pl 1 didv._1poleresult proj "1-Pole Fit").bind
    fun f1 =>
  (fdPoleBlock env didv pl 2 didv._2poleresult proj "2-Pole Fit").bind
    fun f2 =>
  (fdPoleBlock env didv pl 3 didv._3poleresult proj "3-Pole Fit").bind
    fun f3 =>
  let sub := maskFilter (maskFilter meanVals pinds)
    ((maskFilter didv._freq pinds).map fun f => decide (f < 100000))
  (pymax sub).bind fun yhigh =>
  (pymin sub).bind fun ylow =>
  (pymin (maskFilter didv._freq fi)).bind fun fmin =>
  (pymax (maskFilter didv._freq fi)).bind fun fmax =>
  .ok ([.scatterPts (maskFilter didv._freq pinds)
        (maskFilter meanVals pinds) (some "Mean"),
      .plotLine (maskFilter didv._freq pinds) (maskFilter hiVals pinds)
        (some "1-$\\sigma$ Bounds"),
      .plotLine (maskFilter didv._freq pinds) (maskFilter loVals pinds)
        none] ++
    f1 ++ f2 ++ f3 ++
    [.setYlim (-(max yhigh (-ylow))) (max yhigh (-ylow)),
      .setXlim fmin fmax, .setTitle ttl] ++
    outBlock lgcsave fname)

/-- Exported function `plot_re_im_didv` (lines 286-512): poleslist, masks
and best time offset are computed once, then the real-part figure and the
imaginary-part figure are produced in order. -/
def plot_re_im_didv (env : Env) (didv : DIDV) (poles : Poles)
    (lgcsave : Bool) (savepath savename : String) :
    Except PyError RunResult :=
  let pl := npArray poles
  let bto := best_time_offset_re_im didv._1poleresult didv._2poleresult
    didv._3poleresult
  let tp := timePhaseArr env didv bto
  (reimFig env didv pl tp Cplx.re "Real Part of dIdV"
      (savepath ++ "didv_real_" ++ savename ++ ".png") lgcsave).bind
    fun fig1 =>
  (reimFig env didv pl tp Cplx.im "Imaginary Part of dIdV"
      (savepath ++ "didv_imag_" ++ savename ++ ".png") lgcsave).bind
    fun fig2 =>
  .ok ⟨fig1 ++ fig2, didv, none⟩

/-- Exact rational value of the 64-bit float constant `np.pi`. -/
def npPiQ : ℚ := 884279719003555 / 281474976710656

/-- The absolute-value figure of `plot_abs_phase_didv` (lines 573-649):
scatter of `np.abs` of the raw mean (no phase correction), the two bound
lines, the three guarded fit blocks with the `np.abs` projection, the y
window from zero to the maximum of the plotted mean below `1e5` Hz, the x
window, the title and the save/show tail. -/
def absFig (env : Env) (didv : DIDV) (pl : NpPoles) (fname : String)
    (lgcsave : Bool) : Except PyError (List PlotCmd) :=
  let pinds := plotinds env didv
  let fi := fitinds didv
  let meanVals := didv._didvmean.map env.npabs
  let hiVals := (didv._didvmean.zip didv._didvstd).map fun q =>
    env.npabs (cadd q.1 q.2)
  let loVals := (didv._didvmean.zip didv._didvstd).map fun q =>
    env.npabs (csub q.1 q.2)
  (fdPoleBlock env didv pl 1 didv._1poleresult env.npabs "1-Pole Fit").bind
    fun f1 =>
  (fdPoleBlock env didv pl 2 didv._2poleresult env.npabs "2-Pole Fit").bind
    fun f2 =>
  (fdPoleBlock env didv pl 3 didv._3poleresult env.npabs "3-Pole Fit").bind
    fun f3 =>
  let sub := maskFilter (maskFilter meanVals pinds)
    ((maskFilter didv._freq pinds).map fun f => decide (f < 100000))
  (pymax sub).bind fun yhigh =>
  (pymin (maskFilter didv._freq fi)).bind fun fmin =>
  (pymax (maskFilter didv._freq fi)).bind fun fmax =>
  .ok ([.scatterPts (maskFilter didv._freq pinds)
        (maskFilter meanVals pinds) (some "Mean"),
      .plotLine (maskFilter didv._freq pinds) (maskFilter hiVals pinds)
        (some "1-$\\sigma$ Bounds"),
      .plotLine (maskFilter didv._freq pinds) (maskFilter loVals pinds)
        none] ++
    f1 ++ f2 ++ f3 ++
    [.setYlim 0 yhigh, .setXlim fmin fmax, .setTitle "|dIdV|"] ++
    outBlock lgcsave fname)

/-- The phase figure of `plot_abs_phase_didv` (lines 651-727): scatter of
`np.angle` of the phase-corrected mean, the two bound lines, the three
guarded fit blocks with the `np.angle` projection, the fixed y window
`(-np.pi, np.pi)`, the x window, the title and the save/show tail. -/
def phaseFig (env : Env) (didv : DIDV) (pl : NpPoles) (tp : List Cplx)
    (fname : String) (lgcsave : Bool) : Except PyError (List PlotCmd) :=
  let pinds := plotinds env didv
  let fi := fitinds didv
  let meanVals := (didv._didvmean.zip tp).map fun q =>
    env.npangle (cmul q.1 q.2)
  let hiVals :=
    (((didv._didvmean.zip didv._didvstd).map fun q => cadd q.1 q.2).zip
      tp).map fun q => env.npangle (cmul q.1 q.2)
  let loVals :=
    (((didv._didvmean.zip didv._didvstd).map fun q => csub q.1 q.2).zip
      tp).map fun q => env.npangle (cmul q.1 q.2)
  (fdPoleBlock env didv pl 1 didv._1poleresult env.npangle
      "1-Pole Fit").bind fun f1 =>
  (fdPoleBlock env didv pl 2 didv._2poleresult env.npangle
      "2-Pole Fit").bind fun f2 =>
  (fdPoleBlock env didv pl 3 didv._3poleresult env.npangle
      "3-Pole Fit").bind fun f3 =>
  (pymin (maskFilter didv._freq fi)).bind fun fmin =>
  (pymax (maskFilter didv._freq fi)).bind fun fmax =>
  .ok ([.scatterPts (maskFilter didv._freq pinds)
        (maskFilter meanVals pinds) (some "Mean"),
      .plotLine (maskFilter didv._freq pinds) (maskFilter hiVals pinds)
        (some "1-$\\sigma$ Bounds"),
      .plotLine (maskFilter didv._freq pinds) (maskFilter loVals pinds)
        none] ++
    f1 ++ f2 ++ f3 ++
    [.setYlim (-npPiQ) npPiQ, .setXlim fmin fmax,
      .setTitle "Phase of dIdV"] ++
    outBlock lgcsave fname)

/-- Exported function `plot_abs_phase_didv` (lines 515-727): poleslist,
masks and best time offset are computed once, then the absolute-value
figure and the phase figure are produced in order. -/
def plot_abs_phase_didv (env : Env) (didv : DIDV) (poles : Poles)
    (lgcsave : Bool) (savepath savename : String) :
    Except PyError RunResult :=
  let pl := npArray poles
  let bto := best_time_offset_abs_phase didv._1poleresult didv._2poleresult
    didv._3poleresult
  let tp := timePhaseArr env didv bto
  (absFig env didv pl
      (savepath ++ "didv_abs_" ++ savename ++ ".png") lgcsave).bind
    fun fig1 =>
  (phaseFig env didv pl tp
      (savepath ++ "didv_phase_" ++ savename ++ ".png") lgcsave).bind
    fun fig2 =>
  .ok ⟨fig1 ++ fig2, didv, none⟩

/-- The module's export list (`__all__`, lines 6-13). -/
def __all__ : List String :=
  ["plot_full_trace", "plot_single_period_of_trace", "plot_zoomed_in_trace",
    "plot_didv_flipped", "plot_re_im_didv", "plot_abs_phase_didv"]

/-- Commands drawn by one time-domain guarded block for a given poleslist. -/
def tdBlockCmds (env : Env) (didv : DIDV) (pl : NpPoles) (p : Int)
    (r : Option FitResult) (lbl : String) : List PlotCmd :=
  match r with
  | none => []
  | some fr => if npMem p pl then [tdFitCurve env didv fr lbl] else []

/-- Commands drawn by one frequency-domain guarded block for a given poleslist. -/
def fdBlockCmds (env : Env) (didv : DIDV) (pl : NpPoles) (p : Nat)
    (r : Option FitResult) (proj : Cplx → ℚ) (lbl : String) :
    List PlotCmd :=
  match r with
  | none => []
  | some fr =>
      if npMem (Int.ofNat p) pl then [fdFitCurve env didv fr proj lbl]
      else []

/-- Full trace drawn by `_plot_time_domain` for a given poleslist. -/
def tdCmds (env : Env) (didv : DIDV) (pl : NpPoles) : List PlotCmd :=
  [meanLine didv] ++ tdBlockCmds env didv pl 1 didv._1poleresult "1-Pole Fit"
    ++ tdBlockCmds env didv pl 2 didv._2poleresult "2-Pole Fit"
    ++ tdBlockCmds env didv pl 3 didv._3poleresult "3-Pole Fit"

/-- Events of a completed `plot_full_trace` call. -/
def fullTraceCmds (env : Env) (didv : DIDV) (pl : NpPoles) (lg : Bool)
    (sp sn : String) : List PlotCmd :=
  tdCmds env didv pl ++
    [.setXlim (listHead didv._time * 1000000)
        (listLastD didv._time * 1000000),
      .setTitle "Full Trace of dIdV"] ++
    outBlock lg (sp ++ "full_trace_" ++ sn ++ ".png")

/-- Events of a completed `plot_single_period_of_trace` call. -/
def singlePeriodCmds (env : Env) (didv : DIDV) (pl : NpPoles) (lg : Bool)
    (sp sn : String) : List PlotCmd :=
  tdCmds env didv pl ++
    [.setXlim (listHead didv._time * 1000000)
        (listHead didv._time * 1000000 + 1 / didv._sgfreq * 1000000),
      .setTitle "Single Period of Trace"] ++
    outBlock lg (sp ++ "trace_one_period_" ++ sn ++ ".png")

/-- Events of a completed `plot_zoomed_in_trace` call. -/
def zoomedCmds (env : Env) (didv : DIDV) (pl : NpPoles) (zf : ℚ)
    (lg : Bool) (sp sn : String) : List PlotCmd :=
  tdCmds env didv pl ++
    [.setXlim
        ((best_time_offset_zoomed didv._1poleresult didv._2poleresult
            didv._3poleresult + listHead didv._time +
            (1 / 2 - zf / 2) * (1 / didv._sgfreq)) * 1000000)
        ((best_time_offset_zoomed didv._1poleresult didv._2poleresult
            didv._3poleresult + listHead didv._time +
            (1 / 2 + zf / 2) * (1 / didv._sgfreq)) * 1000000),
      .setTitle "Zoomed In Portion of Trace"] ++
    outBlock lg (sp ++ "zoomed_in_trace_" ++ sn ++ ".png")

/-- Events of a completed `plot_didv_flipped` call. -/
def flippedCmds (env : Env) (didv : DIDV) (pl : NpPoles) (lg : Bool)
    (sp sn : String) : List PlotCmd :=
  tdCmds env didv pl ++
    [.plotLine
        (didv._time.map fun t => (t - 1 / didv._sgfreq / 2) * 1000000)
        (didv._tmean.map fun y => (-(y - didv._offset)) * 1000000)
        (some "Flipped Data"),
      .setTitle "Flipped Traces to Check Asymmetry"] ++
    outBlock lg (sp ++ "flipped_trace_" ++ sn ++ ".png")

/-- Events of one completed real/imaginary figure of `plot_re_im_didv`. -/
def reimFigCmds (env : Env) (didv : DIDV) (pl : NpPoles) (tp : List Cplx)
    (proj : Cplx → ℚ) (ttl fname : String) (lg : Bool) : List PlotCmd :=
  let pinds := plotinds env didv
  let fi := fitinds didv
  let meanVals := (didv._didvmean.zip tp).map fun q => proj (cmul q.1 q.2)
  let hiVals :=
    (((didv._didvmean.zip didv._didvstd).map fun q => cadd q.1 q.2).zip
      tp).map fun q => proj (cmul q.1 q.2)
  let loVals :=
    (((didv._didvmean.zip didv._didvstd).map fun q => csub q.1 q.2).zip
      tp).map fun q => proj (cmul q.1 q.2)
  let sub := maskFilter (maskFilter meanVals pinds)
    ((maskFilter didv._freq pinds).map fun f => decide (f < 100000))
  [.scatterPts (maskFilter didv._freq pinds) (maskFilter meanVals pinds)
      (some "Mean"),
    .plotLine (maskFilter didv._freq pinds) (maskFilter hiVals pinds)
      (some "1-$\\sigma$ Bounds"),
    .plotLine (maskFilter didv._freq pinds) (maskFilter loVals pinds)
      none] ++
  fdBlockCmds env didv pl 1 didv._1poleresult proj "1-Pole Fit" ++
  fdBlockCmds env didv pl 2 didv._2poleresult proj "2-Pole Fit" ++
  fdBlockCmds env didv pl 3 didv._3poleresult proj "3-Pole Fit" ++
  [.setYlim (-(max (listMax sub) (-listMin sub)))
      (max (listMax sub) (-listMin sub)),
    .setXlim (listMin (maskFilter didv._freq fi))
      (listMax (maskFilter didv._freq fi)),
    .setTitle ttl] ++
  outBlock lg fname

/-- Events of a completed `plot_re_im_didv` call. -/
def reimCmds (env : Env) (didv : DIDV) (pl : NpPoles) (lg : Bool)
    (sp sn : String) : List PlotCmd :=
  reimFigCmds env didv pl
    (timePhaseArr env didv (best_time_offset_re_im didv._1poleresult
      didv._2poleresult didv._3poleresult))
    Cplx.re "Real Part of dIdV" (sp ++ "didv_real_" ++ sn ++ ".png") lg ++
  reimFigCmds env didv pl
    (timePhaseArr env didv (best_time_offset_re_im didv._1poleresult
      didv._2poleresult didv._3poleresult))
    Cplx.im "Imaginary Part of dIdV"
    (sp ++ "didv_imag_" ++ sn ++ ".png") lg

/-- Events of the completed absolute-value figure of
`plot_abs_phase_didv`. -/
def absFigCmds (env : Env) (didv : DIDV) (pl : NpPoles) (fname : String)
    (lg : Bool) : List PlotCmd :=
  let pinds := plotinds env didv
  let fi := fitinds didv
  let meanVals := didv._didvmean.map env.npabs
  let hiVals := (didv._didvmean.zip didv._didvstd).map fun q =>
    env.npabs (cadd q.1 q.2)
  let loVals := (didv._didvmean.zip didv._didvstd).map fun q =>
    env.npabs (csub q.1 q.2)
  let sub := maskFilter (maskFilter meanVals pinds)
    ((maskFilter didv._freq pinds).map fun f => decide (f < 100000))
  [.scatterPts (maskFilter didv._freq pinds) (maskFilter meanVals pinds)
      (some "Mean"),
    .plotLine (maskFilter didv._freq pinds) (maskFilter hiVals pinds)
      (some "1-$\\sigma$ Bounds"),
    .plotLine (maskFilter didv._freq pinds) (maskFilter loVals pinds)
      none] ++
  fdBlockCmds env didv pl 1 didv._1poleresult env.npabs "1-Pole Fit" ++
  fdBlockCmds env didv pl 2 didv._2poleresult env.npabs "2-Pole Fit" ++
  fdBlockCmds env didv pl 3 didv._3poleresult env.npabs "3-Pole Fit" ++
  [.setYlim 0 (listMax sub),
    .setXlim (listMin (maskFilter didv._freq fi))
      (listMax (maskFilter didv._freq fi)),
    .setTitle "|dIdV|"] ++
  outBlock lg fname

/-- Events of the completed phase figure of `plot_abs_phase_didv`. -/
def phaseFigCmds (env : Env) (didv : DIDV) (pl : NpPoles) (tp : List Cplx)
    (fname : String) (lg : Bool) : List PlotCmd :=
  let pinds := plotinds env didv
  let fi := fitinds didv
  let meanVals := (didv._didvmean.zip tp).map fun q =>
    env.npangle (cmul q.1 q.2)
  let hiVals :=
    (((didv._didvmean.zip didv._didvstd).map fun q => cadd q.1 q.2).zip
      tp).map fun q => env.npangle (cmul q.1 q.2)
  let loVals :=
    (((didv._didvmean.zip didv._didvstd).map fun q => csub q.1 q.2).zip
      tp).map fun q => env.npangle (cmul q.1 q.2)
  [.scatterPts (maskFilter didv._freq pinds) (maskFilter meanVals pinds)
      (some "Mean"),
    .plotLine (maskFilter didv._freq pinds) (maskFilter hiVals pinds)
      (some "1-$\\sigma$ Bounds"),
    .plotLine (maskFilter didv._freq pinds) (maskFilter loVals pinds)
      none] ++
  fdBlockCmds env didv pl 1 didv._1poleresult env.npangle "1-Pole Fit" ++
  fdBlockCmds env didv pl 2 didv._2poleresult env.npangle "2-Pole Fit" ++
  fdBlockCmds env didv pl 3 didv._3poleresult env.npangle "3-Pole Fit" ++
  [.setYlim (-npPiQ) npPiQ,
    .setXlim (listMin (maskFilter didv._freq fi))
      (listMax (maskFilter didv._freq fi)),
    .setTitle "Phase of dIdV"] ++
  outBlock lg fname

/-- Events of a completed `plot_abs_phase_didv` call. -/
def absPhaseCmds (env : Env) (didv : DIDV) (pl : NpPoles) (lg : Bool)
    (sp sn : String) : List PlotCmd :=
  absFigCmds env didv pl (sp ++ "didv_abs_" ++ sn ++ ".png") lg ++
  phaseFigCmds env didv pl
    (timePhaseArr env didv (best_time_offset_abs_phase didv._1poleresult
      didv._2poleresult didv._3poleresult))
    (sp ++ "didv_phase_" ++ sn ++ ".png") lg

/-- Position-indexed view of the three pole-fit slots (index `0` holds the
1-pole result, index `1` the 2-pole result, index `2` the 3-pole
result). -/
def optNth (r1 r2 r3 : Option FitResult) : Nat → Option FitResult
  | 0 => r1
  | 1 => r2
  | 2 => r3
  | _ => none

/-- Well-formed fit-result object in the sense of the spec claims:
consistent nonempty arrays (the fit dictionaries are well formed by
typing) and a physical, nonzero signal-generator frequency. -/
abbrev WellFormed (didv : DIDV) : Prop :=
  didv._time ≠ [] ∧ didv._tmean.length = didv._time.length ∧
  didv._freq ≠ [] ∧ didv._didvmean.length = didv._freq.length ∧
  didv._didvstd.length = didv._freq.length ∧ didv._sgfreq ≠ 0

/-- The frequency-domain figures also take extrema over the positive
frequencies and over the well-measured points below the 1e5 Hz cut; this
predicate states that those selections are nonempty. -/
abbrev FreqPlottable (env : Env) (didv : DIDV) : Prop :=
  maskFilter didv._freq (fitinds didv) ≠ [] ∧
  maskFilter (maskFilter didv._freq (plotinds env didv))
    ((maskFilter didv._freq (plotinds env didv)).map
      fun f => decide (f < 100000)) ≠ []

/-- Statement pattern of claim C3 for one event trace: no curve of the
missing pole fit, the mean curve still present, and a curve for every
other stored fit. -/
def MissingFitSkipped (didv : DIDV) (p : Nat)
    (events : List PlotCmd) : Prop :=
  (∀ e ∈ events, cmdLabel e ≠ some (poleLbl p)) ∧
  (∃ e ∈ events, cmdLabel e = some "Mean") ∧
  (∀ q, (q = 1 ∨ q = 2 ∨ q = 3) → q ≠ p →
    ∀ fr, didv.fitresult q = some fr →
      ∃ e ∈ events, cmdLabel e = some (poleLbl q))

/-- Statement pattern of the amended claim C9 for one event trace drawn
with a scalar `poles` value `n`: no curve of a pole other than `n` is
drawn, and the curve of the stored fit whose pole number equals `n` is
drawn. -/
def ScalarPolesSelects (didv : DIDV) (n : Int)
    (events : List PlotCmd) : Prop :=
  (∀ p : Nat, (p = 1 ∨ p = 2 ∨ p = 3) → (p : Int) ≠ n →
    ∀ e ∈ events, cmdLabel e ≠ some (poleLbl p)) ∧
  (∀ (p : Nat) (fr : FitResult), (p = 1 ∨ p = 2 ∨ p = 3) →
    (p : Int) = n → didv.fitresult p = some fr →
      ∃ e ∈ events, cmdLabel e = some (poleLbl p))

/-- Abstract environment instance used by the witnesses and
counterexamples: the response models are irrelevant to the properties
checked there, and the float magnitude is the constant `3`. -/
def envW : Env :=
  ⟨fun t _ _ _ _ _ => t.map fun _ => 0,
   fun f _ => f.map fun _ => ⟨0, 0⟩,
   fun _ => 3,
   fun _ => 0,
   fun _ _ => ⟨1, 0⟩⟩

/-- Well-formed fit-result object with no stored fits. -/
def didvA : DIDV :=
  ⟨[0, 1], [0, 0], 0, [1, 2], [⟨5, 0⟩, ⟨5, 0⟩], [⟨1, 0⟩, ⟨1, 0⟩],
    1, 1, 1, 1 / 2, none, none, none⟩

/-- Well-formed fit-result object with only the 2-pole fit stored. -/
def didvW : DIDV :=
  ⟨[0, 1], [0, 0], 0, [1, 2], [⟨5, 0⟩, ⟨5, 0⟩], [⟨1, 0⟩, ⟨1, 0⟩],
    1, 1, 1, 1 / 2, none, some ⟨⟨7, []⟩, 3⟩, none⟩

/-- Well-formed fit-result object whose only well-measured point lies
above the 1e5 Hz cut of the frequency-domain window computation. -/
def didvC : DIDV :=
  ⟨[0], [0], 0, [200000], [⟨10, 0⟩], [⟨1, 0⟩], 1, 1, 1, 1 / 2,
    none, none, none⟩

/-! Lemmas and theorems about the model. -/

theorem pymax_ok (xs : List ℚ) (h : xs ≠ []) : pymax xs = .ok (listMax xs) := by
  cases xs with
  | nil => exact absurd rfl h
  | cons x xs => rfl

theorem pymin_ok (xs : List ℚ) (h : xs ≠ []) : pymin xs = .ok (listMin xs) := by
  cases xs with
  | nil => exact absurd rfl h
  | cons x xs => rfl

theorem pyhead_ok (xs : List ℚ) (h : xs ≠ []) :
    pyhead xs = .ok (listHead xs) := by
  cases xs with
  | nil => exact absurd rfl h
  | cons x xs => rfl

theorem pylast_ok (xs : List ℚ) (h : xs ≠ []) :
    pylast xs = .ok (listLastD xs) := by
  cases xs with
  | nil => exact absurd rfl h
  | cons x xs => rfl

theorem pydivQ_ok (a b : ℚ) (h : b ≠ 0) : pydivQ a b = .ok (a / b) := by
  simp [pydivQ, h]

theorem maskFilter_length_congr {α β : Type} (xs : List α) (ys : List β)
    (m : List Bool) (h : xs.length = ys.length) :
    (maskFilter xs m).length = (maskFilter ys m).length := by
  induction m generalizing xs ys with
  | nil => cases xs <;> cases ys <;> simp [maskFilter]
  | cons b bs ih =>
      cases xs with
      | nil =>
          cases ys with
          | nil => simp [maskFilter]
          | cons y ys => simp at h
      | cons x xs =>
          cases ys with
          | nil => simp at h
          | cons y ys =>
              simp only [List.length_cons, Nat.succ.injEq] at h
              cases b <;> simp [maskFilter, ih xs ys h]

theorem maskFilter_ne_nil_congr {α β : Type} (xs : List α) (ys : List β)
    (m : List Bool) (h : xs.length = ys.length)
    (hne : maskFilter xs m ≠ []) : maskFilter ys m ≠ [] := by
  intro hc
  apply hne
  have hlen := maskFilter_length_congr xs ys m h
  rw [hc] at hlen
  exact List.length_eq_zero.mp hlen

theorem tdPoleBlock_ok (env : Env) (didv : DIDV) (pl : NpPoles)
    (p : Int) (r : Option FitResult) (lbl : String) :
    tdPoleBlock env didv pl p r lbl =
      .ok (tdBlockCmds env didv pl p r lbl) := by
  cases r with
  | none => rfl
  | some fr =>
      simp only [tdPoleBlock, tdBlockCmds]
      split <;> rfl

theorem fdPoleBlock_ok (env : Env) (didv : DIDV) (pl : NpPoles)
    (p : Nat) (r : Option FitResult) (proj : Cplx → ℚ) (lbl : String)
    (hr : didv.fitresult p = r) :
    fdPoleBlock env didv pl p r proj lbl =
      .ok (fdBlockCmds env didv pl p r proj lbl) := by
  cases r with
  | none => rfl
  | some fr =>
      simp only [fdPoleBlock, fdBlockCmds, hr]
      split <;> rfl

theorem ptd_run (env : Env) (didv : DIDV) (poles : Poles) :
    _plot_time_domain env didv poles =
      .ok (tdCmds env didv (npArray poles), didv) := by
  simp [_plot_time_domain, tdPoleBlock_ok, Except.bind, tdCmds]

theorem plot_full_trace_run (env : Env) (didv : DIDV) (poles : Poles)
    (lg : Bool) (sp sn : String) (ht : didv._time ≠ []) :
    plot_full_trace env didv poles lg sp sn =
      .ok ⟨fullTraceCmds env didv (npArray poles) lg sp sn, didv,
        none⟩ := by
  simp [plot_full_trace, ptd_run env didv poles, Except.bind,
    pyhead_ok _ ht, pylast_ok _ ht, fullTraceCmds]

theorem plot_single_period_run (env : Env) (didv : DIDV) (poles : Poles)
    (lg : Bool) (sp sn : String) (ht : didv._time ≠ [])
    (hsg : didv._sgfreq ≠ 0) :
    plot_single_period_of_trace env didv poles lg sp sn =
      .ok ⟨singlePeriodCmds env didv (npArray poles) lg sp sn, didv,
        none⟩ := by
  simp [plot_single_period_of_trace, ptd_run env didv poles,
    Except.bind, pyhead_ok _ ht, pydivQ_ok _ _ hsg, singlePeriodCmds]

theorem plot_zoomed_run (env : Env) (didv : DIDV) (poles : Poles)
    (zf : ℚ) (lg : Bool) (sp sn : String) (ht : didv._time ≠ [])
    (hsg : didv._sgfreq ≠ 0) :
    plot_zoomed_in_trace env didv poles zf lg sp sn =
      .ok ⟨zoomedCmds env didv (npArray poles) zf lg sp sn, didv,
        none⟩ := by
  simp [plot_zoomed_in_trace, ptd_run env didv poles, Except.bind,
    pyhead_ok _ ht, pydivQ_ok _ _ hsg, zoomedCmds]

theorem plot_flipped_run (env : Env) (didv : DIDV) (poles : Poles)
    (lg : Bool) (sp sn : String) (hsg : didv._sgfreq ≠ 0) :
    plot_didv_flipped env didv poles lg sp sn =
      .ok ⟨flippedCmds env didv (npArray poles) lg sp sn, didv,
        none⟩ := by
  simp [plot_didv_flipped, ptd_run env didv poles, Except.bind,
    pydivQ_ok _ _ hsg, flippedCmds]

theorem reimFig_run (env : Env) (didv : DIDV) (pl : NpPoles)
    (tp : List Cplx) (proj : Cplx → ℚ) (ttl fname : String) (lg : Bool)
    (hlen : didv._didvmean.length = didv._freq.length)
    (htp : tp.length = didv._freq.length)
    (hfit : maskFilter didv._freq (fitinds didv) ≠ [])
    (hlow : maskFilter (maskFilter didv._freq (plotinds env didv))
        ((maskFilter didv._freq (plotinds env didv)).map
          fun f => decide (f < 100000)) ≠ []) :
    reimFig env didv pl tp proj ttl fname lg =
      .ok (reimFigCmds env didv pl tp proj ttl fname lg) := by
  have hmv : ((didv._didvmean.zip tp).map fun q =>
      proj (cmul q.1 q.2)).length = didv._freq.length := by
    simp [List.length_zip, hlen, htp]
  have hsub : maskFilter
      (maskFilter ((didv._didvmean.zip tp).map fun q =>
        proj (cmul q.1 q.2)) (plotinds env didv))
      ((maskFilter didv._freq (plotinds env didv)).map
        fun f => decide (f < 100000)) ≠ [] := by
    refine maskFilter_ne_nil_congr _ _ _ ?_ hlow
    exact maskFilter_length_congr _ _ _ hmv.symm
  simp [reimFig, reimFigCmds, Except.bind,
    fdPoleBlock_ok env didv pl 1 didv._1poleresult proj "1-Pole Fit" rfl,
    fdPoleBlock_ok env didv pl 2 didv._2poleresult proj "2-Pole Fit" rfl,
    fdPoleBlock_ok env didv pl 3 didv._3poleresult proj "3-Pole Fit" rfl,
    pymax_ok _ hsub, pymin_ok _ hsub, pymin_ok _ hfit, pymax_ok _ hfit]

theorem plot_re_im_run (env : Env) (didv : DIDV) (poles : Poles)
    (lg : Bool) (sp sn : String)
    (hlen : didv._didvmean.length = didv._freq.length)
    (hfit : maskFilter didv._freq (fitinds didv) ≠ [])
    (hlow : maskFilter (maskFilter didv._freq (plotinds env didv))
        ((maskFilter didv._freq (plotinds env didv)).map
          fun f => decide (f < 100000)) ≠ []) :
    plot_re_im_didv env didv poles lg sp sn =
      .ok ⟨reimCmds env didv (npArray poles) lg sp sn, didv, none⟩ := by
  have htp : (timePhaseArr env didv (best_time_offset_re_im
      didv._1poleresult didv._2poleresult didv._3poleresult)).length =
      didv._freq.length := by
    simp [timePhaseArr]
  simp [plot_re_im_didv, Except.bind, reimCmds,
    reimFig_run env didv (npArray poles) _ Cplx.re "Real Part of dIdV"
      (sp ++ "didv_real_" ++ sn ++ ".png") lg hlen htp hfit hlow,
    reimFig_run env didv (npArray poles) _ Cplx.im
      "Imaginary Part of dIdV"
      (sp ++ "didv_imag_" ++ sn ++ ".png") lg hlen htp hfit hlow]

theorem absFig_run (env : Env) (didv : DIDV) (pl : NpPoles)
    (fname : String) (lg : Bool)
    (hlen : didv._didvmean.length = didv._freq.length)
    (hfit : maskFilter didv._freq (fitinds didv) ≠ [])
    (hlow : maskFilter (maskFilter didv._freq (plotinds env didv))
        ((maskFilter didv._freq (plotinds env didv)).map
          fun f => decide (f < 100000)) ≠ []) :
    absFig env didv pl fname lg =
      .ok (absFigCmds env didv pl fname lg) := by
  have hmv : (didv._didvmean.map env.npabs).length =
      didv._freq.length := by
    simp [hlen]
  have hsub : maskFilter
      (maskFilter (didv._didvmean.map env.npabs) (plotinds env didv))
      ((maskFilter didv._freq (plotinds env didv)).map
        fun f => decide (f < 100000)) ≠ [] := by
    refine maskFilter_ne_nil_congr _ _ _ ?_ hlow
    exact maskFilter_length_congr _ _ _ hmv.symm
  simp [absFig, absFigCmds, Except.bind,
    fdPoleBlock_ok env didv pl 1 didv._1poleresult env.npabs
      "1-Pole Fit" rfl,
    fdPoleBlock_ok env didv pl 2 didv._2poleresult env.npabs
      "2-Pole Fit" rfl,
    fdPoleBlock_ok env didv pl 3 didv._3poleresult env.npabs
      "3-Pole Fit" rfl,
    pymax_ok _ hsub, pymin_ok _ hfit, pymax_ok _ hfit]

theorem phaseFig_run (env : Env) (didv : DIDV) (pl : NpPoles)
    (tp : List Cplx) (fname : String) (lg : Bool)
    (hfit : maskFilter didv._freq (fitinds didv) ≠ []) :
    phaseFig env didv pl tp fname lg =
      .ok (phaseFigCmds env didv pl tp fname lg) := by
  simp [phaseFig, phaseFigCmds, Except.bind,
    fdPoleBlock_ok env didv pl 1 didv._1poleresult env.npangle
      "1-Pole Fit" rfl,
    fdPoleBlock_ok env didv pl 2 didv._2poleresult env.npangle
      "2-Pole Fit" rfl,
    fdPoleBlock_ok env didv pl 3 didv._3poleresult env.npangle
      "3-Pole Fit" rfl,
    pymin_ok _ hfit, pymax_ok _ hfit]

theorem plot_abs_phase_run (env : Env) (didv : DIDV) (poles : Poles)
    (lg : Bool) (sp sn : String)
    (hlen : didv._didvmean.length = didv._freq.length)
    (hfit : maskFilter didv._freq (fitinds didv) ≠ [])
    (hlow : maskFilter (maskFilter didv._freq (plotinds env didv))
        ((maskFilter didv._freq (plotinds env didv)).map
          fun f => decide (f < 100000)) ≠ []) :
    plot_abs_phase_didv env didv poles lg sp sn =
      .ok ⟨absPhaseCmds env didv (npArray poles) lg sp sn, didv,
        none⟩ := by
  simp [plot_abs_phase_didv, Except.bind, absPhaseCmds,
    absFig_run env didv (npArray poles)
      (sp ++ "didv_abs_" ++ sn ++ ".png") lg hlen hfit hlow,
    phaseFig_run env didv (npArray poles) _
      (sp ++ "didv_phase_" ++ sn ++ ".png") lg hfit]

/-- When at least one fit is present, the scan returns the `dt` of the
present fit of minimal cost, and among cost ties the one of smallest
index. -/
theorem bto_char (r1 r2 r3 : Option FitResult)
    (hp : r1 ≠ none ∨ r2 ≠ none ∨ r3 ≠ none) :
    ∃ i0 f0, optNth r1 r2 r3 i0 = some f0 ∧
      (∀ k fk, optNth r1 r2 r3 k = some fk → f0.cost ≤ fk.cost) ∧
      (∀ k fk, k < i0 → optNth r1 r2 r3 k = some fk →
        f0.cost < fk.cost) ∧
      best_time_offset_zoomed r1 r2 r3 = f0.params.dt := by
  rcases r1 with _ | a <;> rcases r2 with _ | b <;> rcases r3 with _ | c
  · simp at hp
  · -- none, none, some c
    refine ⟨2, c, rfl, ?_, ?_, ?_⟩
    · intro k fk hk
      rcases k with _ | _ | _ | k <;> simp [optNth] at hk
      subst hk; exact le_refl _
    · intro k fk hk hke
      rcases k with _ | _ | _ | k <;> simp [optNth] at hke
      omega
    · simp [best_time_offset_zoomed, presentPairs, pyMinPairs, List.enum,
        List.enumFrom]
  · -- none, some b, none
    refine ⟨1, b, rfl, ?_, ?_, ?_⟩
    · intro k fk hk
      rcases k with _ | _ | _ | k <;> simp [optNth] at hk
      subst hk; exact le_refl _
    · intro k fk hk hke
      rcases k with _ | _ | _ | k <;> simp [optNth] at hke
      omega
    · simp [best_time_offset_zoomed, presentPairs, pyMinPairs, List.enum,
        List.enumFrom]
  · -- none, some b, some c
    rcases lt_or_le c.cost b.cost with hcb | hcb
    · refine ⟨2, c, rfl, ?_, ?_, ?_⟩
      · intro k fk hk
        rcases k with _ | _ | _ | k <;> simp [optNth] at hk <;> subst hk
        · exact le_of_lt hcb
        · exact le_refl _
      · intro k fk hk hke
        rcases k with _ | _ | _ | k
        · simp [optNth] at hke
        · simp [optNth] at hke; subst hke; exact hcb
        · omega
        · omega
      · simp [best_time_offset_zoomed, presentPairs, pyMinPairs,
          List.enum, List.enumFrom, hcb]
    · refine ⟨1, b, rfl, ?_, ?_, ?_⟩
      · intro k fk hk
        rcases k with _ | _ | _ | k <;> simp [optNth] at hk <;> subst hk
        · exact le_refl _
        · exact hcb
      · intro k fk hk hke
        rcases k with _ | _ | _ | k <;> simp [optNth] at hke <;> omega
      · simp [best_time_offset_zoomed, presentPairs, pyMinPairs,
          List.enum, List.enumFrom, not_lt.mpr hcb]
  · -- some a, none, none
    refine ⟨0, a, rfl, ?_, ?_, ?_⟩
    · intro k fk hk
      rcases k with _ | _ | _ | k <;> simp [optNth] at hk
      subst hk; exact le_refl _
    · intro k fk hk hke
      exact absurd hk (Nat.not_lt_zero k)
    · simp [best_time_offset_zoomed, presentPairs, pyMinPairs, List.enum,
        List.enumFrom]
  · -- some a, none, some c
    rcases lt_or_le c.cost a.cost with hca | hca
    · refine ⟨2, c, rfl, ?_, ?_, ?_⟩
      · intro k fk hk
        rcases k with _ | _ | _ | k <;> simp [optNth] at hk <;> subst hk
        · exact le_of_lt hca
        · exact le_refl _
      · intro k fk hk hke
        rcases k with _ | _ | _ | k
        · simp [optNth] at hke; subst hke; exact hca
        · simp [optNth] at hke
        · omega
        · omega
      · simp [best_time_offset_zoomed, presentPairs, pyMinPairs,
          List.enum, List.enumFrom, hca]
    · refine ⟨0, a, rfl, ?_, ?_, ?_⟩
      · intro k fk hk
        rcases k with _ | _ | _ | k <;> simp [optNth] at hk <;> subst hk
        · exact le_refl _
        · exact hca
      · intro k fk hk hke
        exact absurd hk (Nat.not_lt_zero k)
      · simp [best_time_offset_zoomed, presentPairs, pyMinPairs,
          List.enum, List.enumFrom, not_lt.mpr hca]
  · -- some a, some b, none
    rcases lt_or_le b.cost a.cost with hba | hba
    · refine ⟨1, b, rfl, ?_, ?_, ?_⟩
      · intro k fk hk
        rcases k with _ | _ | _ | k <;> simp [optNth] at hk <;> subst hk
        · exact le_of_lt hba
        · exact le_refl _
      · intro k fk hk hke
        rcases k with _ | _ | _ | k
        · simp [optNth] at hke; subst hke; exact hba
        · omega
        · omega
        · omega
      · simp [best_time_offset_zoomed, presentPairs, pyMinPairs,
          List.enum, List.enumFrom, hba]
    · refine ⟨0, a, rfl, ?_, ?_, ?_⟩
      · intro k fk hk
        rcases k with _ | _ | _ | k <;> simp [optNth] at hk <;> subst hk
        · exact le_refl _
        · exact hba
      · intro k fk hk hke
        exact absurd hk (Nat.not_lt_zero k)
      · simp [best_time_offset_zoomed, presentPairs, pyMinPairs,
          List.enum, List.enumFrom, not_lt.mpr hba]
  · -- some a, some b, some c
    rcases lt_or_le b.cost a.cost with hba | hba
    · rcases lt_or_le c.cost b.cost with hcb | hcb
      · refine ⟨2, c, rfl, ?_, ?_, ?_⟩
        · intro k fk hk
          rcases k with _ | _ | _ | k <;> simp [optNth] at hk <;> subst hk
          · exact le_of_lt (lt_trans hcb hba)
          · exact le_of_lt hcb
          · exact le_refl _
        · intro k fk hk hke
          rcases k with _ | _ | _ | k
          · simp [optNth] at hke; subst hke; exact lt_trans hcb hba
          · simp [optNth] at hke; subst hke; exact hcb
          · omega
          · omega
        · simp [best_time_offset_zoomed, presentPairs, pyMinPairs,
            List.enum, List.enumFrom, hba, hcb]
      · refine ⟨1, b, rfl, ?_, ?_, ?_⟩
        · intro k fk hk
          rcases k with _ | _ | _ | k <;> simp [optNth] at hk <;> subst hk
          · exact le_of_lt hba
          · exact le_refl _
          · exact hcb
        · intro k fk hk hke
          rcases k with _ | _ | _ | k
          · simp [optNth] at hke; subst hke; exact hba
          · omega
          · omega
          · omega
        · simp [best_time_offset_zoomed, presentPairs, pyMinPairs,
            List.enum, List.enumFrom, hba, not_lt.mpr hcb]
    · rcases lt_or_le c.cost a.cost with hca | hca
      · refine ⟨2, c, rfl, ?_, ?_, ?_⟩
        · intro k fk hk
          rcases k with _ | _ | _ | k <;> simp [optNth] at hk <;> subst hk
          · exact le_of_lt hca
          · exact le_of_lt (lt_of_lt_of_le hca hba)
          · exact le_refl _
        · intro k fk hk hke
          rcases k with _ | _ | _ | k
          · simp [optNth] at hke; subst hke; exact hca
          · simp [optNth] at hke; subst hke; exact lt_of_lt_of_le hca hba
          · omega
          · omega
        · simp [best_time_offset_zoomed, presentPairs, pyMinPairs,
            List.enum, List.enumFrom, not_lt.mpr hba, hca]
      · refine ⟨0, a, rfl, ?_, ?_, ?_⟩
        · intro k fk hk
          rcases k with _ | _ | _ | k <;> simp [optNth] at hk <;> subst hk
          · exact le_refl _
          · exact hba
          · exact hca
        · intro k fk hk hke
          exact absurd hk (Nat.not_lt_zero k)
        · simp [best_time_offset_zoomed, presentPairs, pyMinPairs,
            List.enum, List.enumFrom, not_lt.mpr hba, not_lt.mpr hca]

/-! Inventory of curve labels and output commands in the traces. -/

theorem tdBlockCmds_mem (env : Env) (didv : DIDV) (pl : NpPoles)
    (p : Int) (r : Option FitResult) (lbl : String) (e : PlotCmd)
    (he : e ∈ tdBlockCmds env didv pl p r lbl) :
    ∃ fr, r = some fr ∧ npMem p pl = true ∧
      e = tdFitCurve env didv fr lbl := by
  cases r with
  | none => simp [tdBlockCmds] at he
  | some fr =>
      simp only [tdBlockCmds] at he
      split at he
      · rename_i hm
        simp at he
        exact ⟨fr, rfl, hm, he⟩
      · simp at he

theorem fdBlockCmds_mem (env : Env) (didv : DIDV) (pl : NpPoles)
    (p : Nat) (r : Option FitResult) (proj : Cplx → ℚ) (lbl : String)
    (e : PlotCmd) (he : e ∈ fdBlockCmds env didv pl p r proj lbl) :
    ∃ fr, r = some fr ∧ npMem (Int.ofNat p) pl = true ∧
      e = fdFitCurve env didv fr proj lbl := by
  cases r with
  | none => simp [fdBlockCmds] at he
  | some fr =>
      simp only [fdBlockCmds] at he
      split at he
      · rename_i hm
        simp at he
        exact ⟨fr, rfl, hm, he⟩
      · simp at he

theorem outBlock_label (lg : Bool) (fname : String) (e : PlotCmd)
    (he : e ∈ outBlock lg fname) : cmdLabel e = none := by
  cases lg with
  | false => simp [outBlock] at he; subst he; rfl
  | true => simp [outBlock] at he; rcases he with rfl | rfl <;> rfl

theorem tdCmds_labels (env : Env) (didv : DIDV) (pl : NpPoles)
    (e : PlotCmd) (he : e ∈ tdCmds env didv pl) :
    cmdLabel e = some "Mean" ∨
    (∃ fr, didv._1poleresult = some fr ∧ npMem 1 pl = true ∧
      cmdLabel e = some "1-Pole Fit") ∨
    (∃ fr, didv._2poleresult = some fr ∧ npMem 2 pl = true ∧
      cmdLabel e = some "2-Pole Fit") ∨
    (∃ fr, didv._3poleresult = some fr ∧ npMem 3 pl = true ∧
      cmdLabel e = some "3-Pole Fit") := by
  simp only [tdCmds, List.append_assoc, List.mem_append,
    List.mem_singleton] at he
  rcases he with rfl | he | he | he
  · exact Or.inl rfl
  · obtain ⟨fr, hr, hm, rfl⟩ := tdBlockCmds_mem _ _ _ _ _ _ _ he
    exact Or.inr (Or.inl ⟨fr, hr, hm, rfl⟩)
  · obtain ⟨fr, hr, hm, rfl⟩ := tdBlockCmds_mem _ _ _ _ _ _ _ he
    exact Or.inr (Or.inr (Or.inl ⟨fr, hr, hm, rfl⟩))
  · obtain ⟨fr, hr, hm, rfl⟩ := tdBlockCmds_mem _ _ _ _ _ _ _ he
    exact Or.inr (Or.inr (Or.inr ⟨fr, hr, hm, rfl⟩))

theorem tdCmds_no_missing_label (env : Env) (didv : DIDV) (pl : NpPoles)
    (p : Nat) (hp : p = 1 ∨ p = 2 ∨ p = 3)
    (hmiss : didv.fitresult p = none) (e : PlotCmd)
    (he : e ∈ tdCmds env didv pl) : cmdLabel e ≠ some (poleLbl p) := by
  intro hlab
  rcases tdCmds_labels env didv pl e he with h | ⟨fr, hr, hm, h⟩ |
    ⟨fr, hr, hm, h⟩ | ⟨fr, hr, hm, h⟩ <;>
    rcases hp with rfl | rfl | rfl <;>
    simp_all [poleLbl, DIDV.fitresult]

theorem tdCmds_fit_mem (env : Env) (didv : DIDV) (p : Nat)
    (fr : FitResult) (hp : p = 1 ∨ p = 2 ∨ p = 3)
    (hfr : didv.fitresult p = some fr) :
    tdFitCurve env didv fr (poleLbl p) ∈
      tdCmds env didv (.oneDim [1, 2, 3]) := by
  rcases hp with rfl | rfl | rfl <;>
    simp_all [DIDV.fitresult, tdCmds, tdBlockCmds, poleLbl, npMem]

theorem tdCmds_scalar_fit_mem (env : Env) (didv : DIDV) (n : Int)
    (p : Nat) (fr : FitResult) (hp : p = 1 ∨ p = 2 ∨ p = 3)
    (hn : (p : Int) = n) (hfr : didv.fitresult p = some fr) :
    tdFitCurve env didv fr (poleLbl p) ∈
      tdCmds env didv (.zeroDim n) := by
  subst hn
  rcases hp with rfl | rfl | rfl <;>
    simp_all [DIDV.fitresult, tdCmds, tdBlockCmds, poleLbl, npMem]

theorem tdCmds_scalar_no_other (env : Env) (didv : DIDV) (n : Int)
    (p : Nat) (hp : p = 1 ∨ p = 2 ∨ p = 3) (hne : (p : Int) ≠ n)
    (e : PlotCmd) (he : e ∈ tdCmds env didv (.zeroDim n)) :
    cmdLabel e ≠ some (poleLbl p) := by
  intro hlab
  rcases tdCmds_labels env didv (.zeroDim n) e he with h |
    ⟨fr, hr, hm, h⟩ | ⟨fr, hr, hm, h⟩ | ⟨fr, hr, hm, h⟩ <;>
    rcases hp with rfl | rfl | rfl <;>
    simp_all [poleLbl, npMem]

theorem filter_out_tdBlock (env : Env) (didv : DIDV) (pl : NpPoles)
    (p : Int) (r : Option FitResult) (lbl : String) :
    (tdBlockCmds env didv pl p r lbl).filter isOutputCmd = [] := by
  cases r with
  | none => rfl
  | some fr => simp only [tdBlockCmds]; split <;> rfl

theorem filter_out_fdBlock (env : Env) (didv : DIDV) (pl : NpPoles)
    (p : Nat) (r : Option FitResult) (proj : Cplx → ℚ) (lbl : String) :
    (fdBlockCmds env didv pl p r proj lbl).filter isOutputCmd = [] := by
  cases r with
  | none => rfl
  | some fr => simp only [fdBlockCmds]; split <;> rfl

theorem filter_out_outBlock (lg : Bool) (fname : String) :
    (outBlock lg fname).filter isOutputCmd =
      if lg then [.saveFig fname] else [.showFig] := by
  cases lg <;> rfl

theorem filter_out_tdCmds (env : Env) (didv : DIDV) (pl : NpPoles) :
    (tdCmds env didv pl).filter isOutputCmd = [] := by
  simp [tdCmds, List.filter_append, filter_out_tdBlock, isOutputCmd,
    List.filter, meanLine]

theorem reimFigCmds_labels (env : Env) (didv : DIDV) (pl : NpPoles)
    (tp : List Cplx) (proj : Cplx → ℚ) (ttl fname : String) (lg : Bool)
    (e : PlotCmd)
    (he : e ∈ reimFigCmds env didv pl tp proj ttl fname lg) :
    cmdLabel e = some "Mean" ∨ cmdLabel e = some "1-$\\sigma$ Bounds" ∨
    cmdLabel e = none ∨
    (∃ fr, didv._1poleresult = some fr ∧ npMem 1 pl = true ∧
      cmdLabel e = some "1-Pole Fit") ∨
    (∃ fr, didv._2poleresult = some fr ∧ npMem 2 pl = true ∧
      cmdLabel e = some "2-Pole Fit") ∨
    (∃ fr, didv._3poleresult = some fr ∧ npMem 3 pl = true ∧
      cmdLabel e = some "3-Pole Fit") := by
  simp only [reimFigCmds, List.append_assoc, List.mem_append,
    List.mem_cons, List.mem_singleton, List.not_mem_nil, or_false] at he
  rcases he with (rfl | rfl | rfl) | he | he | he |
    (rfl | rfl | rfl) | he
  · exact Or.inl rfl
  · exact Or.inr (Or.inl rfl)
  · exact Or.inr (Or.inr (Or.inl rfl))
  · obtain ⟨fr, hr, hm, rfl⟩ := fdBlockCmds_mem _ _ _ _ _ _ _ _ he
    exact Or.inr (Or.inr (Or.inr (Or.inl ⟨fr, hr, hm, rfl⟩)))
  · obtain ⟨fr, hr, hm, rfl⟩ := fdBlockCmds_mem _ _ _ _ _ _ _ _ he
    exact Or.inr (Or.inr (Or.inr (Or.inr (Or.inl ⟨fr, hr, hm, rfl⟩))))
  · obtain ⟨fr, hr, hm, rfl⟩ := fdBlockCmds_mem _ _ _ _ _ _ _ _ he
    exact Or.inr (Or.inr (Or.inr (Or.inr (Or.inr ⟨fr, hr, hm, rfl⟩))))
  · exact Or.inr (Or.inr (Or.inl rfl))
  · exact Or.inr (Or.inr (Or.inl rfl))
  · exact Or.inr (Or.inr (Or.inl rfl))
  · exact Or.inr (Or.inr (Or.inl (outBlock_label _ _ _ he)))

theorem absFigCmds_labels (env : Env) (didv : DIDV) (pl : NpPoles)
    (fname : String) (lg : Bool) (e : PlotCmd)
    (he : e ∈ absFigCmds env didv pl fname lg) :
    cmdLabel e = some "Mean" ∨ cmdLabel e = some "1-$\\sigma$ Bounds" ∨
    cmdLabel e = none ∨
    (∃ fr, didv._1poleresult = some fr ∧ npMem 1 pl = true ∧
      cmdLabel e = some "1-Pole Fit") ∨
    (∃ fr, didv._2poleresult = some fr ∧ npMem 2 pl = true ∧
      cmdLabel e = some "2-Pole Fit") ∨
    (∃ fr, didv._3poleresult = some fr ∧ npMem 3 pl = true ∧
      cmdLabel e = some "3-Pole Fit") := by
  simp only [absFigCmds, List.append_assoc, List.mem_append,
    List.mem_cons, List.mem_singleton, List.not_mem_nil, or_false] at he
  rcases he with (rfl | rfl | rfl) | he | he | he |
    (rfl | rfl | rfl) | he
  · exact Or.inl rfl
  · exact Or.inr (Or.inl rfl)
  · exact Or.inr (Or.inr (Or.inl rfl))
  · obtain ⟨fr, hr, hm, rfl⟩ := fdBlockCmds_mem _ _ _ _ _ _ _ _ he
    exact Or.inr (Or.inr (Or.inr (Or.inl ⟨fr, hr, hm, rfl⟩)))
  · obtain ⟨fr, hr, hm, rfl⟩ := fdBlockCmds_mem _ _ _ _ _ _ _ _ he
    exact Or.inr (Or.inr (Or.inr (Or.inr (Or.inl ⟨fr, hr, hm, rfl⟩))))
  · obtain ⟨fr, hr, hm, rfl⟩ := fdBlockCmds_mem _ _ _ _ _ _ _ _ he
    exact Or.inr (Or.inr (Or.inr (Or.inr (Or.inr ⟨fr, hr, hm, rfl⟩))))
  · exact Or.inr (Or.inr (Or.inl rfl))
  · exact Or.inr (Or.inr (Or.inl rfl))
  · exact Or.inr (Or.inr (Or.inl rfl))
  · exact Or.inr (Or.inr (Or.inl (outBlock_label _ _ _ he)))

theorem phaseFigCmds_labels (env : Env) (didv : DIDV) (pl : NpPoles)
    (tp : List Cplx) (fname : String) (lg : Bool) (e : PlotCmd)
    (he : e ∈ phaseFigCmds env didv pl tp fname lg) :
    cmdLabel e = some "Mean" ∨ cmdLabel e = some "1-$\\sigma$ Bounds" ∨
    cmdLabel e = none ∨
    (∃ fr, didv._1poleresult = some fr ∧ npMem 1 pl = true ∧
      cmdLabel e = some "1-Pole Fit") ∨
    (∃ fr, didv._2poleresult = some fr ∧ npMem 2 pl = true ∧
      cmdLabel e = some "2-Pole Fit") ∨
    (∃ fr, didv._3poleresult = some fr ∧ npMem 3 pl = true ∧
      cmdLabel e = some "3-Pole Fit") := by
  simp only [phaseFigCmds, List.append_assoc, List.mem_append,
    List.mem_cons, List.mem_singleton, List.not_mem_nil, or_false] at he
  rcases he with (rfl | rfl | rfl) | he | he | he |
    (rfl | rfl | rfl) | he
  · exact Or.inl rfl
  · exact Or.inr (Or.inl rfl)
  · exact Or.inr (Or.inr (Or.inl rfl))
  · obtain ⟨fr, hr, hm, rfl⟩ := fdBlockCmds_mem _ _ _ _ _ _ _ _ he
    exact Or.inr (Or.inr (Or.inr (Or.inl ⟨fr, hr, hm, rfl⟩)))
  · obtain ⟨fr, hr, hm, rfl⟩ := fdBlockCmds_mem _ _ _ _ _ _ _ _ he
    exact Or.inr (Or.inr (Or.inr (Or.inr (Or.inl ⟨fr, hr, hm, rfl⟩))))
  · obtain ⟨fr, hr, hm, rfl⟩ := fdBlockCmds_mem _ _ _ _ _ _ _ _ he
    exact Or.inr (Or.inr (Or.inr (Or.inr (Or.inr ⟨fr, hr, hm, rfl⟩))))
  · exact Or.inr (Or.inr (Or.inl rfl))
  · exact Or.inr (Or.inr (Or.inl rfl))
  · exact Or.inr (Or.inr (Or.inl rfl))
  · exact Or.inr (Or.inr (Or.inl (outBlock_label _ _ _ he)))

theorem tdCmds_mean_mem (env : Env) (didv : DIDV) (pl : NpPoles) :
    ∃ e ∈ tdCmds env didv pl, cmdLabel e = some "Mean" :=
  ⟨meanLine didv, by simp [tdCmds], rfl⟩

theorem reimFigCmds_mean_mem (env : Env) (didv : DIDV) (pl : NpPoles)
    (tp : List Cplx) (proj : Cplx → ℚ) (ttl fname : String) (lg : Bool) :
    ∃ e ∈ reimFigCmds env didv pl tp proj ttl fname lg,
      cmdLabel e = some "Mean" := by
  refine ⟨.scatterPts (maskFilter didv._freq (plotinds env didv))
    (maskFilter ((didv._didvmean.zip tp).map fun q => proj (cmul q.1 q.2))
      (plotinds env didv)) (some "Mean"), ?_, rfl⟩
  simp [reimFigCmds]

theorem absFigCmds_mean_mem (env : Env) (didv : DIDV) (pl : NpPoles)
    (fname : String) (lg : Bool) :
    ∃ e ∈ absFigCmds env didv pl fname lg, cmdLabel e = some "Mean" := by
  refine ⟨.scatterPts (maskFilter didv._freq (plotinds env didv))
    (maskFilter (didv._didvmean.map env.npabs) (plotinds env didv))
    (some "Mean"), ?_, rfl⟩
  simp [absFigCmds]

theorem reimFigCmds_fit_mem (env : Env) (didv : DIDV) (tp : List Cplx)
    (proj : Cplx → ℚ) (ttl fname : String) (lg : Bool) (p : Nat)
    (fr : FitResult) (hp : p = 1 ∨ p = 2 ∨ p = 3)
    (hfr : didv.fitresult p = some fr) :
    fdFitCurve env didv fr proj (poleLbl p) ∈
      reimFigCmds env didv (.oneDim [1, 2, 3]) tp proj ttl fname lg := by
  rcases hp with rfl | rfl | rfl <;>
    simp_all [DIDV.fitresult, reimFigCmds, fdBlockCmds, poleLbl, npMem]

theorem absFigCmds_fit_mem (env : Env) (didv : DIDV) (fname : String)
    (lg : Bool) (p : Nat) (fr : FitResult)
    (hp : p = 1 ∨ p = 2 ∨ p = 3) (hfr : didv.fitresult p = some fr) :
    fdFitCurve env didv fr env.npabs (poleLbl p) ∈
      absFigCmds env didv (.oneDim [1, 2, 3]) fname lg := by
  rcases hp with rfl | rfl | rfl <;>
    simp_all [DIDV.fitresult, absFigCmds, fdBlockCmds, poleLbl, npMem]

theorem phaseFigCmds_fit_mem (env : Env) (didv : DIDV) (tp : List Cplx)
    (fname : String) (lg : Bool) (p : Nat) (fr : FitResult)
    (hp : p = 1 ∨ p = 2 ∨ p = 3) (hfr : didv.fitresult p = some fr) :
    fdFitCurve env didv fr env.npangle (poleLbl p) ∈
      phaseFigCmds env didv (.oneDim [1, 2, 3]) tp fname lg := by
  rcases hp with rfl | rfl | rfl <;>
    simp_all [DIDV.fitresult, phaseFigCmds, fdBlockCmds, poleLbl, npMem]

theorem reimFigCmds_scalar_fit_mem (env : Env) (didv : DIDV) (n : Int)
    (tp : List Cplx) (proj : Cplx → ℚ) (ttl fname : String) (lg : Bool)
    (p : Nat) (fr : FitResult) (hp : p = 1 ∨ p = 2 ∨ p = 3)
    (hn : (p : Int) = n) (hfr : didv.fitresult p = some fr) :
    fdFitCurve env didv fr proj (poleLbl p) ∈
      reimFigCmds env didv (.zeroDim n) tp proj ttl fname lg := by
  subst hn
  rcases hp with rfl | rfl | rfl <;>
    simp_all [DIDV.fitresult, reimFigCmds, fdBlockCmds, poleLbl, npMem]

theorem absFigCmds_scalar_fit_mem (env : Env) (didv : DIDV) (n : Int)
    (fname : String) (lg : Bool) (p : Nat) (fr : FitResult)
    (hp : p = 1 ∨ p = 2 ∨ p = 3) (hn : (p : Int) = n)
    (hfr : didv.fitresult p = some fr) :
    fdFitCurve env didv fr env.npabs (poleLbl p) ∈
      absFigCmds env didv (.zeroDim n) fname lg := by
  subst hn
  rcases hp with rfl | rfl | rfl <;>
    simp_all [DIDV.fitresult, absFigCmds, fdBlockCmds, poleLbl, npMem]

theorem reimFigCmds_no_missing_label (env : Env) (didv : DIDV)
    (pl : NpPoles) (tp : List Cplx) (proj : Cplx → ℚ)
    (ttl fname : String) (lg : Bool) (p : Nat)
    (hp : p = 1 ∨ p = 2 ∨ p = 3) (hmiss : didv.fitresult p = none)
    (e : PlotCmd)
    (he : e ∈ reimFigCmds env didv pl tp proj ttl fname lg) :
    cmdLabel e ≠ some (poleLbl p) := by
  intro hlab
  rcases reimFigCmds_labels env didv pl tp proj ttl fname lg e he with
    h | h | h | ⟨fr, hr, hm, h⟩ | ⟨fr, hr, hm, h⟩ | ⟨fr, hr, hm, h⟩ <;>
    rcases hp with rfl | rfl | rfl <;>
    simp_all [poleLbl, DIDV.fitresult]

theorem absFigCmds_no_missing_label (env : Env) (didv : DIDV)
    (pl : NpPoles) (fname : String) (lg : Bool) (p : Nat)
    (hp : p = 1 ∨ p = 2 ∨ p = 3) (hmiss : didv.fitresult p = none)
    (e : PlotCmd) (he : e ∈ absFigCmds env didv pl fname lg) :
    cmdLabel e ≠ some (poleLbl p) := by
  intro hlab
  rcases absFigCmds_labels env didv pl fname lg e he with
    h | h | h | ⟨fr, hr, hm, h⟩ | ⟨fr, hr, hm, h⟩ | ⟨fr, hr, hm, h⟩ <;>
    rcases hp with rfl | rfl | rfl <;>
    simp_all [poleLbl, DIDV.fitresult]

theorem phaseFigCmds_no_missing_label (env : Env) (didv : DIDV)
    (pl : NpPoles) (tp : List Cplx) (fname : String) (lg : Bool)
    (p : Nat) (hp : p = 1 ∨ p = 2 ∨ p = 3)
    (hmiss : didv.fitresult p = none) (e : PlotCmd)
    (he : e ∈ phaseFigCmds env didv pl tp fname lg) :
    cmdLabel e ≠ some (poleLbl p) := by
  intro hlab
  rcases phaseFigCmds_labels env didv pl tp fname lg e he with
    h | h | h | ⟨fr, hr, hm, h⟩ | ⟨fr, hr, hm, h⟩ | ⟨fr, hr, hm, h⟩ <;>
    rcases hp with rfl | rfl | rfl <;>
    simp_all [poleLbl, DIDV.fitresult]

theorem reimFigCmds_scalar_no_other (env : Env) (didv : DIDV) (n : Int)
    (tp : List Cplx) (proj : Cplx → ℚ) (ttl fname : String) (lg : Bool)
    (p : Nat) (hp : p = 1 ∨ p = 2 ∨ p = 3) (hne : (p : Int) ≠ n)
    (e : PlotCmd)
    (he : e ∈ reimFigCmds env didv (.zeroDim n) tp proj ttl fname lg) :
    cmdLabel e ≠ some (poleLbl p) := by
  intro hlab
  rcases reimFigCmds_labels env didv (.zeroDim n) tp proj ttl fname lg e
      he with
    h | h | h | ⟨fr, hr, hm, h⟩ | ⟨fr, hr, hm, h⟩ | ⟨fr, hr, hm, h⟩ <;>
    rcases hp with rfl | rfl | rfl <;>
    simp_all [poleLbl, npMem]

theorem absFigCmds_scalar_no_other (env : Env) (didv : DIDV) (n : Int)
    (fname : String) (lg : Bool) (p : Nat)
    (hp : p = 1 ∨ p = 2 ∨ p = 3) (hne : (p : Int) ≠ n) (e : PlotCmd)
    (he : e ∈ absFigCmds env didv (.zeroDim n) fname lg) :
    cmdLabel e ≠ some (poleLbl p) := by
  intro hlab
  rcases absFigCmds_labels env didv (.zeroDim n) fname lg e he with
    h | h | h | ⟨fr, hr, hm, h⟩ | ⟨fr, hr, hm, h⟩ | ⟨fr, hr, hm, h⟩ <;>
    rcases hp with rfl | rfl | rfl <;>
    simp_all [poleLbl, npMem]

theorem phaseFigCmds_scalar_no_other (env : Env) (didv : DIDV) (n : Int)
    (tp : List Cplx) (fname : String) (lg : Bool) (p : Nat)
    (hp : p = 1 ∨ p = 2 ∨ p = 3) (hne : (p : Int) ≠ n) (e : PlotCmd)
    (he : e ∈ phaseFigCmds env didv (.zeroDim n) tp fname lg) :
    cmdLabel e ≠ some (poleLbl p) := by
  intro hlab
  rcases phaseFigCmds_labels env didv (.zeroDim n) tp fname lg e he with
    h | h | h | ⟨fr, hr, hm, h⟩ | ⟨fr, hr, hm, h⟩ | ⟨fr, hr, hm, h⟩ <;>
    rcases hp with rfl | rfl | rfl <;>
    simp_all [poleLbl, npMem]

theorem MissingFitSkipped_td (env : Env) (didv : DIDV) (p : Nat)
    (hp : p = 1 ∨ p = 2 ∨ p = 3) (hmiss : didv.fitresult p = none)
    (extra : List PlotCmd)
    (hex : ∀ e ∈ extra, cmdLabel e ≠ some (poleLbl p))
    (lg : Bool) (f : String) :
    MissingFitSkipped didv p
      (tdCmds env didv (.oneDim [1, 2, 3]) ++ extra ++ outBlock lg f) := by
  refine ⟨?_, ?_, ?_⟩
  · intro e he
    rcases List.mem_append.mp he with he | he
    · rcases List.mem_append.mp he with he | he
      · exact tdCmds_no_missing_label env didv _ p hp hmiss e he
      · exact hex e he
    · intro hlab
      rw [outBlock_label lg f e he] at hlab
      cases hlab
  · obtain ⟨e, hm, hl⟩ := tdCmds_mean_mem env didv (.oneDim [1, 2, 3])
    exact ⟨e, List.mem_append.mpr
      (Or.inl (List.mem_append.mpr (Or.inl hm))), hl⟩
  · intro q hq hqp fr hfr
    exact ⟨tdFitCurve env didv fr (poleLbl q),
      List.mem_append.mpr (Or.inl (List.mem_append.mpr
        (Or.inl (tdCmds_fit_mem env didv q fr hq hfr)))), rfl⟩

theorem MissingFitSkipped_append (didv : DIDV) (p : Nat)
    (ev1 ev2 : List PlotCmd)
    (hno1 : ∀ e ∈ ev1, cmdLabel e ≠ some (poleLbl p))
    (hno2 : ∀ e ∈ ev2, cmdLabel e ≠ some (poleLbl p))
    (hmean : ∃ e ∈ ev1, cmdLabel e = some "Mean")
    (hfits : ∀ q, (q = 1 ∨ q = 2 ∨ q = 3) → q ≠ p → ∀ fr,
      didv.fitresult q = some fr →
        ∃ e ∈ ev1, cmdLabel e = some (poleLbl q)) :
    MissingFitSkipped didv p (ev1 ++ ev2) := by
  refine ⟨?_, ?_, ?_⟩
  · intro e he
    rcases List.mem_append.mp he with he | he
    exacts [hno1 e he, hno2 e he]
  · obtain ⟨e, hm, hl⟩ := hmean
    exact ⟨e, List.mem_append.mpr (Or.inl hm), hl⟩
  · intro q hq hqp fr hfr
    obtain ⟨e, hm, hl⟩ := hfits q hq hqp fr hfr
    exact ⟨e, List.mem_append.mpr (Or.inl hm), hl⟩

theorem ScalarPolesSelects_td (env : Env) (didv : DIDV) (n : Int)
    (extra : List PlotCmd)
    (hex : ∀ e ∈ extra, ∀ p : Nat, (p = 1 ∨ p = 2 ∨ p = 3) →
      cmdLabel e ≠ some (poleLbl p))
    (lg : Bool) (f : String) :
    ScalarPolesSelects didv n
      (tdCmds env didv (.zeroDim n) ++ extra ++ outBlock lg f) := by
  refine ⟨?_, ?_⟩
  · intro p hp hne e he
    rcases List.mem_append.mp he with he | he
    · rcases List.mem_append.mp he with he | he
      · exact tdCmds_scalar_no_other env didv n p hp hne e he
      · exact hex e he p hp
    · intro hlab
      rw [outBlock_label lg f e he] at hlab
      cases hlab
  · intro p fr hp hn hfr
    exact ⟨tdFitCurve env didv fr (poleLbl p),
      List.mem_append.mpr (Or.inl (List.mem_append.mpr
        (Or.inl (tdCmds_scalar_fit_mem env didv n p fr hp hn hfr)))),
      rfl⟩

theorem ScalarPolesSelects_append (didv : DIDV) (n : Int)
    (ev1 ev2 : List PlotCmd)
    (hno1 : ∀ p : Nat, (p = 1 ∨ p = 2 ∨ p = 3) → (p : Int) ≠ n →
      ∀ e ∈ ev1, cmdLabel e ≠ some (poleLbl p))
    (hno2 : ∀ p : Nat, (p = 1 ∨ p = 2 ∨ p = 3) → (p : Int) ≠ n →
      ∀ e ∈ ev2, cmdLabel e ≠ some (poleLbl p))
    (hfit1 : ∀ (p : Nat) (fr : FitResult), (p = 1 ∨ p = 2 ∨ p = 3) →
      (p : Int) = n → didv.fitresult p = some fr →
        ∃ e ∈ ev1, cmdLabel e = some (poleLbl p)) :
    ScalarPolesSelects didv n (ev1 ++ ev2) := by
  refine ⟨?_, ?_⟩
  · intro p hp hne e he
    rcases List.mem_append.mp he with he | he
    exacts [hno1 p hp hne e he, hno2 p hp hne e he]
  · intro p fr hp hn hfr
    obtain ⟨e, hm, hl⟩ := hfit1 p fr hp hn hfr
    exact ⟨e, List.mem_append.mpr (Or.inl hm), hl⟩

theorem filter_out_reimFig (env : Env) (didv : DIDV) (pl : NpPoles)
    (tp : List Cplx) (proj : Cplx → ℚ) (ttl fname : String) (lg : Bool) :
    (reimFigCmds env didv pl tp proj ttl fname lg).filter isOutputCmd =
      if lg then [.saveFig fname] else [.showFig] := by
  simp [reimFigCmds, List.filter_append, filter_out_fdBlock,
    filter_out_outBlock, isOutputCmd, List.filter]

theorem filter_out_absFig (env : Env) (didv : DIDV) (pl : NpPoles)
    (fname : String) (lg : Bool) :
    (absFigCmds env didv pl fname lg).filter isOutputCmd =
      if lg then [.saveFig fname] else [.showFig] := by
  simp [absFigCmds, List.filter_append, filter_out_fdBlock,
    filter_out_outBlock, isOutputCmd, List.filter]

theorem filter_out_phaseFig (env : Env) (didv : DIDV) (pl : NpPoles)
    (tp : List Cplx) (fname : String) (lg : Bool) :
    (phaseFigCmds env didv pl tp fname lg).filter isOutputCmd =
      if lg then [.saveFig fname] else [.showFig] := by
  simp [phaseFigCmds, List.filter_append, filter_out_fdBlock,
    filter_out_outBlock, isOutputCmd, List.filter]

theorem filter_out_fullTrace (env : Env) (didv : DIDV) (pl : NpPoles)
    (lg : Bool) (sp sn : String) :
    (fullTraceCmds env didv pl lg sp sn).filter isOutputCmd =
      if lg then [.saveFig (sp ++ "full_trace_" ++ sn ++ ".png")]
      else [.showFig] := by
  simp only [fullTraceCmds, List.filter_append, filter_out_tdCmds,
    filter_out_outBlock]
  rfl

theorem filter_out_singlePeriod (env : Env) (didv : DIDV) (pl : NpPoles)
    (lg : Bool) (sp sn : String) :
    (singlePeriodCmds env didv pl lg sp sn).filter isOutputCmd =
      if lg then [.saveFig (sp ++ "trace_one_period_" ++ sn ++ ".png")]
      else [.showFig] := by
  simp only [singlePeriodCmds, List.filter_append, filter_out_tdCmds,
    filter_out_outBlock]
  rfl

theorem filter_out_zoomed (env : Env) (didv : DIDV) (pl : NpPoles)
    (zf : ℚ) (lg : Bool) (sp sn : String) :
    (zoomedCmds env didv pl zf lg sp sn).filter isOutputCmd =
      if lg then [.saveFig (sp ++ "zoomed_in_trace_" ++ sn ++ ".png")]
      else [.showFig] := by
  simp only [zoomedCmds, List.filter_append, filter_out_tdCmds,
    filter_out_outBlock]
  rfl

theorem filter_out_flipped (env : Env) (didv : DIDV) (pl : NpPoles)
    (lg : Bool) (sp sn : String) :
    (flippedCmds env didv pl lg sp sn).filter isOutputCmd =
      if lg then [.saveFig (sp ++ "flipped_trace_" ++ sn ++ ".png")]
      else [.showFig] := by
  simp only [flippedCmds, List.filter_append, filter_out_tdCmds,
    filter_out_outBlock]
  rfl

theorem filter_out_reimCmds (env : Env) (didv : DIDV) (pl : NpPoles)
    (lg : Bool) (sp sn : String) :
    (reimCmds env didv pl lg sp sn).filter isOutputCmd =
      if lg then [.saveFig (sp ++ "didv_real_" ++ sn ++ ".png"),
        .saveFig (sp ++ "didv_imag_" ++ sn ++ ".png")]
      else [.showFig, .showFig] := by
  cases lg <;>
    simp [reimCmds, List.filter_append, filter_out_reimFig]

theorem filter_out_absPhaseCmds (env : Env) (didv : DIDV) (pl : NpPoles)
    (lg : Bool) (sp sn : String) :
    (absPhaseCmds env didv pl lg sp sn).filter isOutputCmd =
      if lg then [.saveFig (sp ++ "didv_abs_" ++ sn ++ ".png"),
        .saveFig (sp ++ "didv_phase_" ++ sn ++ ".png")]
      else [.showFig, .showFig] := by
  cases lg <;>
    simp [absPhaseCmds, List.filter_append, filter_out_absFig,
      filter_out_phaseFig]

theorem ptd_state (env : Env) (didv : DIDV) (poles : Poles)
    (cmds : List PlotCmd) (d : DIDV)
    (h : _plot_time_domain env didv poles = .ok (cmds, d)) : d = didv := by
  simp only [_plot_time_domain, Except.bind] at h
  repeat' split at h
  all_goals simp_all

theorem plot_full_trace_shape (env : Env) (didv : DIDV) (poles : Poles)
    (lg : Bool) (sp sn : String) (r : RunResult)
    (h : plot_full_trace env didv poles lg sp sn = .ok r) :
    r.state = didv ∧ r.ret = none := by
  simp only [plot_full_trace, Except.bind] at h
  split at h
  · simp at h
  · rename_i fig heq
    obtain ⟨cmds, d⟩ := fig
    have hd : d = didv := ptd_state env didv poles cmds d heq
    repeat' split at h
    all_goals simp_all
    subst h
    simp [hd]

theorem plot_single_period_shape (env : Env) (didv : DIDV) (poles : Poles)
    (lg : Bool) (sp sn : String) (r : RunResult)
    (h : plot_single_period_of_trace env didv poles lg sp sn = .ok r) :
    r.state = didv ∧ r.ret = none := by
  simp only [plot_single_period_of_trace, Except.bind] at h
  split at h
  · simp at h
  · rename_i fig heq
    obtain ⟨cmds, d⟩ := fig
    have hd : d = didv := ptd_state env didv poles cmds d heq
    repeat' split at h
    all_goals simp_all
    subst h
    simp [hd]

theorem plot_zoomed_shape (env : Env) (didv : DIDV) (poles : Poles)
    (zf : ℚ) (lg : Bool) (sp sn : String) (r : RunResult)
    (h : plot_zoomed_in_trace env didv poles zf lg sp sn = .ok r) :
    r.state = didv ∧ r.ret = none := by
  simp only [plot_zoomed_in_trace, Except.bind] at h
  split at h
  · simp at h
  · split at h
    · simp at h
    · rename_i fig heq
      obtain ⟨cmds, d⟩ := fig
      have hd : d = didv := ptd_state env didv poles cmds d heq
      repeat' split at h
      all_goals simp_all
      subst h
      simp [hd]

theorem plot_flipped_shape (env : Env) (didv : DIDV) (poles : Poles)
    (lg : Bool) (sp sn : String) (r : RunResult)
    (h : plot_didv_flipped env didv poles lg sp sn = .ok r) :
    r.state = didv ∧ r.ret = none := by
  simp only [plot_didv_flipped, Except.bind] at h
  split at h
  · simp at h
  · rename_i fig heq
    obtain ⟨cmds, d⟩ := fig
    have hd : d = didv := ptd_state env didv poles cmds d heq
    repeat' split at h
    all_goals simp_all
    subst h
    simp [hd]

theorem plot_re_im_shape (env : Env) (didv : DIDV) (poles : Poles)
    (lg : Bool) (sp sn : String) (r : RunResult)
    (h : plot_re_im_didv env didv poles lg sp sn = .ok r) :
    r.state = didv ∧ r.ret = none := by
  simp only [plot_re_im_didv, Except.bind] at h
  repeat' split at h
  all_goals simp_all
  subst h
  exact ⟨rfl, rfl⟩

theorem plot_abs_phase_shape (env : Env) (didv : DIDV) (poles : Poles)
    (lg : Bool) (sp sn : String) (r : RunResult)
    (h : plot_abs_phase_didv env didv poles lg sp sn = .ok r) :
    r.state = didv ∧ r.ret = none := by
  simp only [plot_abs_phase_didv, Except.bind] at h
  repeat' split at h
  all_goals simp_all
  subst h
  exact ⟨rfl, rfl⟩

/-! Claim theorems. -/

/-- Claim C1: in `plot_zoomed_in_trace`, `plot_re_im_didv` and
`plot_abs_phase_didv`, whenever at least one of the three pole-fit result
dictionaries is present, the time offset used for the plot equals the
`dt` parameter of a present pole fit whose reported cost is minimal among
the present fits, for every combination of present and absent fits and
cost values. -/
theorem C1_best_time_offset_min_cost (r1 r2 r3 : Option FitResult)
    (hp : r1 ≠ none ∨ r2 ≠ none ∨ r3 ≠ none) :
    ∃ i0 f0, optNth r1 r2 r3 i0 = some f0 ∧
      (∀ k fk, optNth r1 r2 r3 k = some fk → f0.cost ≤ fk.cost) ∧
      best_time_offset_zoomed r1 r2 r3 = f0.params.dt ∧
      best_time_offset_re_im r1 r2 r3 = f0.params.dt ∧
      best_time_offset_abs_phase r1 r2 r3 = f0.params.dt := by
  obtain ⟨i0, f0, h1, h2, _, h4⟩ := bto_char r1 r2 r3 hp
  exact ⟨i0, f0, h1, h2, h4, h4, h4⟩

/-- Witness for C1: with only the 2-pole result present the offset is
its `dt`. -/
theorem C1_witness :
    ∃ i0 f0,
      optNth none (some ⟨⟨7, []⟩, 3⟩) none i0 = some f0 ∧
      (∀ k fk, optNth none (some ⟨⟨7, []⟩, 3⟩) none k = some fk →
        f0.cost ≤ fk.cost) ∧
      best_time_offset_zoomed none (some ⟨⟨7, []⟩, 3⟩) none =
        f0.params.dt ∧
      best_time_offset_re_im none (some ⟨⟨7, []⟩, 3⟩) none =
        f0.params.dt ∧
      best_time_offset_abs_phase none (some ⟨⟨7, []⟩, 3⟩) none =
        f0.params.dt :=
  C1_best_time_offset_min_cost none (some ⟨⟨7, []⟩, 3⟩) none
    (Or.inr (Or.inl (by decide)))

/-- Claim C2: when all three pole-fit results are absent, the best time
offset defaults to zero in all three functions that compute it, and
plotting proceeds (each function completes). -/
theorem C2_all_absent_defaults_zero (env : Env) (didv : DIDV) (zf : ℚ)
    (lg : Bool) (sp sn : String)
    (h1 : didv._1poleresult = none) (h2 : didv._2poleresult = none)
    (h3 : didv._3poleresult = none)
    (hwf : WellFormed didv) (hfp : FreqPlottable env didv) :
    best_time_offset_zoomed didv._1poleresult didv._2poleresult
        didv._3poleresult = 0 ∧
    best_time_offset_re_im didv._1poleresult didv._2poleresult
        didv._3poleresult = 0 ∧
    best_time_offset_abs_phase didv._1poleresult didv._2poleresult
        didv._3poleresult = 0 ∧
    (∃ r, plot_zoomed_in_trace env didv .all zf lg sp sn = .ok r) ∧
    (∃ r, plot_re_im_didv env didv .all lg sp sn = .ok r) ∧
    (∃ r, plot_abs_phase_didv env didv .all lg sp sn = .ok r) := by
  refine ⟨?_, ?_, ?_, ?_, ?_, ?_⟩
  · rw [h1, h2, h3]; rfl
  · rw [h1, h2, h3]; rfl
  · rw [h1, h2, h3]; rfl
  · exact ⟨_, plot_zoomed_run env didv .all zf lg sp sn
      hwf.1 hwf.2.2.2.2.2⟩
  · exact ⟨_, plot_re_im_run env didv .all lg sp sn
      hwf.2.2.2.1 hfp.1 hfp.2⟩
  · exact ⟨_, plot_abs_phase_run env didv .all lg sp sn
      hwf.2.2.2.1 hfp.1 hfp.2⟩

/-- Witness for C2 at a concrete fit-result object with no stored
fits. -/
theorem C2_witness :
    best_time_offset_zoomed didvA._1poleresult didvA._2poleresult
        didvA._3poleresult = 0 ∧
    best_time_offset_re_im didvA._1poleresult didvA._2poleresult
        didvA._3poleresult = 0 ∧
    best_time_offset_abs_phase didvA._1poleresult didvA._2poleresult
        didvA._3poleresult = 0 ∧
    (∃ r, plot_zoomed_in_trace envW didvA .all (1 / 10) false "" "" =
      .ok r) ∧
    (∃ r, plot_re_im_didv envW didvA .all false "" "" = .ok r) ∧
    (∃ r, plot_abs_phase_didv envW didvA .all false "" "" = .ok r) :=
  C2_all_absent_defaults_zero envW didvA (1 / 10) false "" "" rfl rfl rfl
    (by decide) (by decide)

/-- Claim C10: the best-time-offset computations duplicated in
`plot_zoomed_in_trace`, `plot_re_im_didv` and `plot_abs_phase_didv` are
the same function of the three pole-fit results, and when present fits
share the minimal cost the fit with the lowest pole number is chosen. -/
theorem C10_scans_equal_lowest_pole_tiebreak :
    best_time_offset_re_im = best_time_offset_zoomed ∧
    best_time_offset_abs_phase = best_time_offset_zoomed ∧
    ∀ r1 r2 r3 : Option FitResult,
      (r1 ≠ none ∨ r2 ≠ none ∨ r3 ≠ none) →
      ∃ i0 f0, optNth r1 r2 r3 i0 = some f0 ∧
        (∀ k fk, optNth r1 r2 r3 k = some fk → f0.cost ≤ fk.cost) ∧
        (∀ k fk, k < i0 → optNth r1 r2 r3 k = some fk →
          f0.cost < fk.cost) ∧
        best_time_offset_zoomed r1 r2 r3 = f0.params.dt :=
  ⟨rfl, rfl, bto_char⟩

/-- Witness for C10: a cost tie between the 1-pole and the 2-pole fits. -/
theorem C10_witness :
    ∃ i0 f0,
      optNth (some ⟨⟨5, []⟩, 3⟩) (some ⟨⟨7, []⟩, 3⟩) none i0 = some f0 ∧
      (∀ k fk, optNth (some ⟨⟨5, []⟩, 3⟩) (some ⟨⟨7, []⟩, 3⟩) none k =
        some fk → f0.cost ≤ fk.cost) ∧
      (∀ k fk, k < i0 →
        optNth (some ⟨⟨5, []⟩, 3⟩) (some ⟨⟨7, []⟩, 3⟩) none k = some fk →
        f0.cost < fk.cost) ∧
      best_time_offset_zoomed (some ⟨⟨5, []⟩, 3⟩) (some ⟨⟨7, []⟩, 3⟩)
        none = f0.params.dt :=
  C10_scans_equal_lowest_pole_tiebreak.2.2 (some ⟨⟨5, []⟩, 3⟩)
    (some ⟨⟨7, []⟩, 3⟩) none (Or.inl (by decide))

/-- Claim C3: for every pole whose fit result is missing, every rendering
function completes without error, draws no curve for that pole, and still
draws the mean trace and the curves of the other stored fits. -/
theorem C3_missing_fit_skipped (env : Env) (didv : DIDV) (zf : ℚ)
    (lg : Bool) (sp sn : String)
    (hwf : WellFormed didv) (hfp : FreqPlottable env didv)
    (p : Nat) (hp : p = 1 ∨ p = 2 ∨ p = 3)
    (hmiss : didv.fitresult p = none) :
    (∃ r, plot_full_trace env didv .all lg sp sn = .ok r ∧
      MissingFitSkipped didv p r.events) ∧
    (∃ r, plot_single_period_of_trace env didv .all lg sp sn = .ok r ∧
      MissingFitSkipped didv p r.events) ∧
    (∃ r, plot_zoomed_in_trace env didv .all zf lg sp sn = .ok r ∧
      MissingFitSkipped didv p r.events) ∧
    (∃ r, plot_didv_flipped env didv .all lg sp sn = .ok r ∧
      MissingFitSkipped didv p r.events) ∧
    (∃ r, plot_re_im_didv env didv .all lg sp sn = .ok r ∧
      MissingFitSkipped didv p r.events) ∧
    (∃ r, plot_abs_phase_didv env didv .all lg sp sn = .ok r ∧
      MissingFitSkipped didv p r.events) := by
  obtain ⟨ht, htm, hf, hlm, hls, hsg⟩ := hwf
  obtain ⟨hfit, hlow⟩ := hfp
  refine
    ⟨⟨_, plot_full_trace_run env didv .all lg sp sn ht, ?_⟩,
    ⟨_, plot_single_period_run env didv .all lg sp sn ht hsg, ?_⟩,
    ⟨_, plot_zoomed_run env didv .all zf lg sp sn ht hsg, ?_⟩,
    ⟨_, plot_flipped_run env didv .all lg sp sn hsg, ?_⟩,
    ⟨_, plot_re_im_run env didv .all lg sp sn hlm hfit hlow, ?_⟩,
    ⟨_, plot_abs_phase_run env didv .all lg sp sn hlm hfit hlow, ?_⟩⟩
  · exact MissingFitSkipped_td env didv p hp hmiss _
      (by intro e he
          simp only [List.mem_cons, List.mem_singleton,
            List.not_mem_nil, or_false] at he
          rcases he with rfl | rfl <;> simp [cmdLabel])
      lg (sp ++ "full_trace_" ++ sn ++ ".png")
  · exact MissingFitSkipped_td env didv p hp hmiss _
      (by intro e he
          simp only [List.mem_cons, List.mem_singleton,
            List.not_mem_nil, or_false] at he
          rcases he with rfl | rfl <;> simp [cmdLabel])
      lg (sp ++ "trace_one_period_" ++ sn ++ ".png")
  · exact MissingFitSkipped_td env didv p hp hmiss _
      (by intro e he
          simp only [List.mem_cons, List.mem_singleton,
            List.not_mem_nil, or_false] at he
          rcases he with rfl | rfl <;> simp [cmdLabel])
      lg (sp ++ "zoomed_in_trace_" ++ sn ++ ".png")
  · exact MissingFitSkipped_td env didv p hp hmiss _
      (by intro e he
          simp only [List.mem_cons, List.mem_singleton,
            List.not_mem_nil, or_false] at he
          rcases he with rfl | rfl
          · rcases hp with rfl | rfl | rfl <;> simp [cmdLabel, poleLbl]
          · simp [cmdLabel])
      lg (sp ++ "flipped_trace_" ++ sn ++ ".png")
  · exact MissingFitSkipped_append didv p _ _
      (reimFigCmds_no_missing_label env didv (.oneDim [1, 2, 3]) _
        Cplx.re "Real Part of dIdV"
        (sp ++ "didv_real_" ++ sn ++ ".png") lg p hp hmiss)
      (reimFigCmds_no_missing_label env didv (.oneDim [1, 2, 3]) _
        Cplx.im "Imaginary Part of dIdV"
        (sp ++ "didv_imag_" ++ sn ++ ".png") lg p hp hmiss)
      (reimFigCmds_mean_mem env didv (.oneDim [1, 2, 3]) _ Cplx.re
        "Real Part of dIdV" (sp ++ "didv_real_" ++ sn ++ ".png") lg)
      (fun q hq hqp fr hfr =>
        ⟨fdFitCurve env didv fr Cplx.re (poleLbl q),
          reimFigCmds_fit_mem env didv _ Cplx.re "Real Part of dIdV"
            (sp ++ "didv_real_" ++ sn ++ ".png") lg q fr hq hfr, rfl⟩)
  · exact MissingFitSkipped_append didv p _ _
      (absFigCmds_no_missing_label env didv (.oneDim [1, 2, 3])
        (sp ++ "didv_abs_" ++ sn ++ ".png") lg p hp hmiss)
      (phaseFigCmds_no_missing_label env didv (.oneDim [1, 2, 3]) _
        (sp ++ "didv_phase_" ++ sn ++ ".png") lg p hp hmiss)
      (absFigCmds_mean_mem env didv (.oneDim [1, 2, 3])
        (sp ++ "didv_abs_" ++ sn ++ ".png") lg)
      (fun q hq hqp fr hfr =>
        ⟨fdFitCurve env didv fr env.npabs (poleLbl q),
          absFigCmds_fit_mem env didv
            (sp ++ "didv_abs_" ++ sn ++ ".png") lg q fr hq hfr, rfl⟩)

/-- Witness for C3: the 1-pole fit is absent while the 2-pole fit is
stored. -/
theorem C3_witness :
    (∃ r, plot_full_trace envW didvW .all false "" "" = .ok r ∧
      MissingFitSkipped didvW 1 r.events) ∧
    (∃ r, plot_single_period_of_trace envW didvW .all false "" "" =
      .ok r ∧ MissingFitSkipped didvW 1 r.events) ∧
    (∃ r, plot_zoomed_in_trace envW didvW .all (1 / 10) false "" "" =
      .ok r ∧ MissingFitSkipped didvW 1 r.events) ∧
    (∃ r, plot_didv_flipped envW didvW .all false "" "" = .ok r ∧
      MissingFitSkipped didvW 1 r.events) ∧
    (∃ r, plot_re_im_didv envW didvW .all false "" "" = .ok r ∧
      MissingFitSkipped didvW 1 r.events) ∧
    (∃ r, plot_abs_phase_didv envW didvW .all false "" "" = .ok r ∧
      MissingFitSkipped didvW 1 r.events) :=
  C3_missing_fit_skipped envW didvW (1 / 10) false "" "" (by decide)
    (by decide) 1 (Or.inl rfl) rfl

/-- Claim C4: for every exported function, on completion the save flag
decides the outcome exactly: with the flag set, the output events are
precisely the PNG files named `<plot-kind>_<savename>.png` under the save
path (one per figure), and with the flag unset they are precisely the
interactive displays. -/
theorem C4_save_or_show_by_convention (env : Env) (didv : DIDV)
    (poles : Poles) (l : List Int) (zf : ℚ) (lg : Bool) (sp sn : String)
    (hpl : npArray poles = .oneDim l)
    (hwf : WellFormed didv) (hfp : FreqPlottable env didv) :
    (∃ r, plot_full_trace env didv poles lg sp sn = .ok r ∧
      r.events.filter isOutputCmd =
        if lg then [.saveFig (sp ++ "full_trace_" ++ sn ++ ".png")]
        else [.showFig]) ∧
    (∃ r, plot_single_period_of_trace env didv poles lg sp sn = .ok r ∧
      r.events.filter isOutputCmd =
        if lg then [.saveFig (sp ++ "trace_one_period_" ++ sn ++ ".png")]
        else [.showFig]) ∧
    (∃ r, plot_zoomed_in_trace env didv poles zf lg sp sn = .ok r ∧
      r.events.filter isOutputCmd =
        if lg then [.saveFig (sp ++ "zoomed_in_trace_" ++ sn ++ ".png")]
        else [.showFig]) ∧
    (∃ r, plot_didv_flipped env didv poles lg sp sn = .ok r ∧
      r.events.filter isOutputCmd =
        if lg then [.saveFig (sp ++ "flipped_trace_" ++ sn ++ ".png")]
        else [.showFig]) ∧
    (∃ r, plot_re_im_didv env didv poles lg sp sn = .ok r ∧
      r.events.filter isOutputCmd =
        if lg then [.saveFig (sp ++ "didv_real_" ++ sn ++ ".png"),
          .saveFig (sp ++ "didv_imag_" ++ sn ++ ".png")]
        else [.showFig, .showFig]) ∧
    (∃ r, plot_abs_phase_didv env didv poles lg sp sn = .ok r ∧
      r.events.filter isOutputCmd =
        if lg then [.saveFig (sp ++ "didv_abs_" ++ sn ++ ".png"),
          .saveFig (sp ++ "didv_phase_" ++ sn ++ ".png")]
        else [.showFig, .showFig]) := by
  obtain ⟨ht, htm, hf, hlm, hls, hsg⟩ := hwf
  obtain ⟨hfit, hlow⟩ := hfp
  exact
    ⟨⟨_, plot_full_trace_run env didv poles lg sp sn ht,
      filter_out_fullTrace env didv (npArray poles) lg sp sn⟩,
    ⟨_, plot_single_period_run env didv poles lg sp sn ht hsg,
      filter_out_singlePeriod env didv (npArray poles) lg sp sn⟩,
    ⟨_, plot_zoomed_run env didv poles zf lg sp sn ht hsg,
      filter_out_zoomed env didv (npArray poles) zf lg sp sn⟩,
    ⟨_, plot_flipped_run env didv poles lg sp sn hsg,
      filter_out_flipped env didv (npArray poles) lg sp sn⟩,
    ⟨_, plot_re_im_run env didv poles lg sp sn hlm hfit hlow,
      filter_out_reimCmds env didv (npArray poles) lg sp sn⟩,
    ⟨_, plot_abs_phase_run env didv poles lg sp sn hlm hfit hlow,
      filter_out_absPhaseCmds env didv (npArray poles) lg sp sn⟩⟩

/-- Witness for C4 with the save flag set and a save path. -/
theorem C4_witness :
    (∃ r, plot_full_trace envW didvA .all true "p/" "s" = .ok r ∧
      r.events.filter isOutputCmd =
        if true then [.saveFig ("p/" ++ "full_trace_" ++ "s" ++ ".png")]
        else [.showFig]) ∧
    (∃ r, plot_single_period_of_trace envW didvA .all true "p/" "s" =
      .ok r ∧ r.events.filter isOutputCmd =
        if true then
          [.saveFig ("p/" ++ "trace_one_period_" ++ "s" ++ ".png")]
        else [.showFig]) ∧
    (∃ r, plot_zoomed_in_trace envW didvA .all (1 / 10) true "p/" "s" =
      .ok r ∧ r.events.filter isOutputCmd =
        if true then
          [.saveFig ("p/" ++ "zoomed_in_trace_" ++ "s" ++ ".png")]
        else [.showFig]) ∧
    (∃ r, plot_didv_flipped envW didvA .all true "p/" "s" = .ok r ∧
      r.events.filter isOutputCmd =
        if true then
          [.saveFig ("p/" ++ "flipped_trace_" ++ "s" ++ ".png")]
        else [.showFig]) ∧
    (∃ r, plot_re_im_didv envW didvA .all true "p/" "s" = .ok r ∧
      r.events.filter isOutputCmd =
        if true then [.saveFig ("p/" ++ "didv_real_" ++ "s" ++ ".png"),
          .saveFig ("p/" ++ "didv_imag_" ++ "s" ++ ".png")]
        else [.showFig, .showFig]) ∧
    (∃ r, plot_abs_phase_didv envW didvA .all true "p/" "s" = .ok r ∧
      r.events.filter isOutputCmd =
        if true then [.saveFig ("p/" ++ "didv_abs_" ++ "s" ++ ".png"),
          .saveFig ("p/" ++ "didv_phase_" ++ "s" ++ ".png")]
        else [.showFig, .showFig]) :=
  C4_save_or_show_by_convention envW didvA .all [1, 2, 3] (1 / 10) true
    "p/" "s" rfl (by decide) (by decide)

/-- Counterexample to claim C5 as stated: `didvC` is a well-formed input
(consistent nonempty arrays, typed fit dictionaries, nonzero
signal-generator frequency, `poles` left at its `"all"` default), yet
`plot_re_im_didv` raises `ValueError` — the Python `max` of an empty
sequence — because its single well-measured point lies at `200000` Hz,
above the `1e5` Hz cut of the y-window computation. -/
theorem C5_counterexample :
    WellFormed didvC ∧
    plot_re_im_didv envW didvC .all false "" "" = .error .valueError :=
  ⟨by decide, rfl⟩

/-- Claim C5 as amended: a rendering function can only complete when the
nonempty sequences it takes extrema over are nonempty, so well-formedness
is strengthened by `FreqPlottable`: some frequency is positive and some
well-measured point lies below the 1e5 Hz cut.  Under that assumption all
six rendering functions complete without raising. -/
theorem C5_amended_renders_complete (env : Env) (didv : DIDV)
    (poles : Poles) (l : List Int) (zf : ℚ) (lg : Bool) (sp sn : String)
    (hpl : npArray poles = .oneDim l)
    (hwf : WellFormed didv) (hfp : FreqPlottable env didv) :
    (∃ r, plot_full_trace env didv poles lg sp sn = .ok r) ∧
    (∃ r, plot_single_period_of_trace env didv poles lg sp sn = .ok r) ∧
    (∃ r, plot_zoomed_in_trace env didv poles zf lg sp sn = .ok r) ∧
    (∃ r, plot_didv_flipped env didv poles lg sp sn = .ok r) ∧
    (∃ r, plot_re_im_didv env didv poles lg sp sn = .ok r) ∧
    (∃ r, plot_abs_phase_didv env didv poles lg sp sn = .ok r) := by
  obtain ⟨ht, htm, hf, hlm, hls, hsg⟩ := hwf
  obtain ⟨hfit, hlow⟩ := hfp
  exact
    ⟨⟨_, plot_full_trace_run env didv poles lg sp sn ht⟩,
    ⟨_, plot_single_period_run env didv poles lg sp sn ht hsg⟩,
    ⟨_, plot_zoomed_run env didv poles zf lg sp sn ht hsg⟩,
    ⟨_, plot_flipped_run env didv poles lg sp sn hsg⟩,
    ⟨_, plot_re_im_run env didv poles lg sp sn hlm hfit hlow⟩,
    ⟨_, plot_abs_phase_run env didv poles lg sp sn hlm hfit hlow⟩⟩

/-- Witness for the amended C5 at a concrete well-formed input. -/
theorem C5_witness :
    (∃ r, plot_full_trace envW didvA .all false "" "" = .ok r) ∧
    (∃ r, plot_single_period_of_trace envW didvA .all false "" "" =
      .ok r) ∧
    (∃ r, plot_zoomed_in_trace envW didvA .all (1 / 10) false "" "" =
      .ok r) ∧
    (∃ r, plot_didv_flipped envW didvA .all false "" "" = .ok r) ∧
    (∃ r, plot_re_im_didv envW didvA .all false "" "" = .ok r) ∧
    (∃ r, plot_abs_phase_didv envW didvA .all false "" "" = .ok r) :=
  C5_amended_renders_complete envW didvA .all [1, 2, 3] (1 / 10) false
    "" "" rfl (by decide) (by decide)

/-- Claim C6: the exported functions and the private helper only read the
fit-result object: whenever a call returns, the object it leaves behind is
unchanged. -/
theorem C6_fit_result_object_unchanged (env : Env) (didv : DIDV)
    (poles : Poles) (zf : ℚ) (lg : Bool) (sp sn : String) :
    (∀ r, plot_full_trace env didv poles lg sp sn = .ok r →
      r.state = didv) ∧
    (∀ r, plot_single_period_of_trace env didv poles lg sp sn = .ok r →
      r.state = didv) ∧
    (∀ r, plot_zoomed_in_trace env didv poles zf lg sp sn = .ok r →
      r.state = didv) ∧
    (∀ r, plot_didv_flipped env didv poles lg sp sn = .ok r →
      r.state = didv) ∧
    (∀ r, plot_re_im_didv env didv poles lg sp sn = .ok r →
      r.state = didv) ∧
    (∀ r, plot_abs_phase_didv env didv poles lg sp sn = .ok r →
      r.state = didv) ∧
    (∀ cmds d, _plot_time_domain env didv poles = .ok (cmds, d) →
      d = didv) :=
  ⟨fun r h => (plot_full_trace_shape env didv poles lg sp sn r h).1,
   fun r h => (plot_single_period_shape env didv poles lg sp sn r h).1,
   fun r h => (plot_zoomed_shape env didv poles zf lg sp sn r h).1,
   fun r h => (plot_flipped_shape env didv poles lg sp sn r h).1,
   fun r h => (plot_re_im_shape env didv poles lg sp sn r h).1,
   fun r h => (plot_abs_phase_shape env didv poles lg sp sn r h).1,
   fun cmds d h => ptd_state env didv poles cmds d h⟩

/-- Witness for C6 at a concrete completed run. -/
theorem C6_witness :
    RunResult.state
      ⟨fullTraceCmds envW didvA (.oneDim [1, 2, 3]) false "" "", didvA,
        none⟩ =
      didvA :=
  (C6_fit_result_object_unchanged envW didvA .all 0 false "" "").1
    ⟨fullTraceCmds envW didvA (.oneDim [1, 2, 3]) false "" "", didvA,
      none⟩
    (plot_full_trace_run envW didvA .all false "" "" (by decide))

/-- Claim C7: every plotted fit curve is the response model evaluated at
the stored grid: in the time-domain functions the `p`-pole curve's values
come from `qp.squarewaveresponse` at `didv._time` with the fitted
parameters (see `tdFitCurve`), and in the frequency-domain functions they
come from `qp.complexadmittance` at `didv._freq` with the fitted
parameters, projected pointwise (see `fdFitCurve`). -/
theorem C7_curves_from_response_models (env : Env) (didv : DIDV) (zf : ℚ)
    (lg : Bool) (sp sn : String)
    (hwf : WellFormed didv) (hfp : FreqPlottable env didv)
    (p : Nat) (fr : FitResult) (hp : p = 1 ∨ p = 2 ∨ p = 3)
    (hfr : didv.fitresult p = some fr) :
    (∃ r, plot_full_trace env didv .all lg sp sn = .ok r ∧
      tdFitCurve env didv fr (poleLbl p) ∈ r.events) ∧
    (∃ r, plot_single_period_of_trace env didv .all lg sp sn = .ok r ∧
      tdFitCurve env didv fr (poleLbl p) ∈ r.events) ∧
    (∃ r, plot_zoomed_in_trace env didv .all zf lg sp sn = .ok r ∧
      tdFitCurve env didv fr (poleLbl p) ∈ r.events) ∧
    (∃ r, plot_didv_flipped env didv .all lg sp sn = .ok r ∧
      tdFitCurve env didv fr (poleLbl p) ∈ r.events) ∧
    (∃ r, plot_re_im_didv env didv .all lg sp sn = .ok r ∧
      fdFitCurve env didv fr Cplx.re (poleLbl p) ∈ r.events ∧
      fdFitCurve env didv fr Cplx.im (poleLbl p) ∈ r.events) ∧
    (∃ r, plot_abs_phase_didv env didv .all lg sp sn = .ok r ∧
      fdFitCurve env didv fr env.npabs (poleLbl p) ∈ r.events ∧
      fdFitCurve env didv fr env.npangle (poleLbl p) ∈ r.events) := by
  obtain ⟨ht, htm, hf, hlm, hls, hsg⟩ := hwf
  obtain ⟨hfit, hlow⟩ := hfp
  have htd := tdCmds_fit_mem env didv p fr hp hfr
  refine
    ⟨⟨_, plot_full_trace_run env didv .all lg sp sn ht,
      List.mem_append.mpr (Or.inl (List.mem_append.mpr (Or.inl htd)))⟩,
    ⟨_, plot_single_period_run env didv .all lg sp sn ht hsg,
      List.mem_append.mpr (Or.inl (List.mem_append.mpr (Or.inl htd)))⟩,
    ⟨_, plot_zoomed_run env didv .all zf lg sp sn ht hsg,
      List.mem_append.mpr (Or.inl (List.mem_append.mpr (Or.inl htd)))⟩,
    ⟨_, plot_flipped_run env didv .all lg sp sn hsg,
      List.mem_append.mpr (Or.inl (List.mem_append.mpr (Or.inl htd)))⟩,
    ⟨_, plot_re_im_run env didv .all lg sp sn hlm hfit hlow, ?_, ?_⟩,
    ⟨_, plot_abs_phase_run env didv .all lg sp sn hlm hfit hlow,
      ?_, ?_⟩⟩
  · exact List.mem_append.mpr (Or.inl (reimFigCmds_fit_mem env didv _
      Cplx.re "Real Part of dIdV" (sp ++ "didv_real_" ++ sn ++ ".png")
      lg p fr hp hfr))
  · exact List.mem_append.mpr (Or.inr (reimFigCmds_fit_mem env didv _
      Cplx.im "Imaginary Part of dIdV"
      (sp ++ "didv_imag_" ++ sn ++ ".png") lg p fr hp hfr))
  · exact List.mem_append.mpr (Or.inl (absFigCmds_fit_mem env didv
      (sp ++ "didv_abs_" ++ sn ++ ".png") lg p fr hp hfr))
  · exact List.mem_append.mpr (Or.inr (phaseFigCmds_fit_mem env didv _
      (sp ++ "didv_phase_" ++ sn ++ ".png") lg p fr hp hfr))

/-- Witness for C7: the stored 2-pole fit curve appears in every
rendering function's trace. -/
theorem C7_witness :
    (∃ r, plot_full_trace envW didvW .all false "" "" = .ok r ∧
      tdFitCurve envW didvW ⟨⟨7, []⟩, 3⟩ (poleLbl 2) ∈ r.events) ∧
    (∃ r, plot_single_period_of_trace envW didvW .all false "" "" =
      .ok r ∧
      tdFitCurve envW didvW ⟨⟨7, []⟩, 3⟩ (poleLbl 2) ∈ r.events) ∧
    (∃ r, plot_zoomed_in_trace envW didvW .all (1 / 10) false "" "" =
      .ok r ∧
      tdFitCurve envW didvW ⟨⟨7, []⟩, 3⟩ (poleLbl 2) ∈ r.events) ∧
    (∃ r, plot_didv_flipped envW didvW .all false "" "" = .ok r ∧
      tdFitCurve envW didvW ⟨⟨7, []⟩, 3⟩ (poleLbl 2) ∈ r.events) ∧
    (∃ r, plot_re_im_didv envW didvW .all false "" "" = .ok r ∧
      fdFitCurve envW didvW ⟨⟨7, []⟩, 3⟩ Cplx.re (poleLbl 2) ∈
        r.events ∧
      fdFitCurve envW didvW ⟨⟨7, []⟩, 3⟩ Cplx.im (poleLbl 2) ∈
        r.events) ∧
    (∃ r, plot_abs_phase_didv envW didvW .all false "" "" = .ok r ∧
      fdFitCurve envW didvW ⟨⟨7, []⟩, 3⟩ envW.npabs (poleLbl 2) ∈
        r.events ∧
      fdFitCurve envW didvW ⟨⟨7, []⟩, 3⟩ envW.npangle (poleLbl 2) ∈
        r.events) :=
  C7_curves_from_response_models envW didvW (1 / 10) false "" ""
    (by decide) (by decide) 2 ⟨⟨7, []⟩, 3⟩ (Or.inr (Or.inl rfl)) rfl

/-- Claim C8: the module exports exactly the six plotting functions, the
helper is private, and each exported function is side-effect-only,
returning no value (Python `None`). -/
theorem C8_module_interface (env : Env) (didv : DIDV) (poles : Poles)
    (zf : ℚ) (lg : Bool) (sp sn : String) :
    __all__ = ["plot_full_trace", "plot_single_period_of_trace",
      "plot_zoomed_in_trace", "plot_didv_flipped", "plot_re_im_didv",
      "plot_abs_phase_didv"] ∧
    __all__.length = 6 ∧
    "_plot_time_domain" ∉ __all__ ∧
    (∀ r, plot_full_trace env didv poles lg sp sn = .ok r →
      r.ret = none) ∧
    (∀ r, plot_single_period_of_trace env didv poles lg sp sn = .ok r →
      r.ret = none) ∧
    (∀ r, plot_zoomed_in_trace env didv poles zf lg sp sn = .ok r →
      r.ret = none) ∧
    (∀ r, plot_didv_flipped env didv poles lg sp sn = .ok r →
      r.ret = none) ∧
    (∀ r, plot_re_im_didv env didv poles lg sp sn = .ok r →
      r.ret = none) ∧
    (∀ r, plot_abs_phase_didv env didv poles lg sp sn = .ok r →
      r.ret = none) :=
  ⟨rfl, rfl, by decide,
   fun r h => (plot_full_trace_shape env didv poles lg sp sn r h).2,
   fun r h => (plot_single_period_shape env didv poles lg sp sn r h).2,
   fun r h => (plot_zoomed_shape env didv poles zf lg sp sn r h).2,
   fun r h => (plot_flipped_shape env didv poles lg sp sn r h).2,
   fun r h => (plot_re_im_shape env didv poles lg sp sn r h).2,
   fun r h => (plot_abs_phase_shape env didv poles lg sp sn r h).2⟩

/-- Witness for C8 at a concrete completed run. -/
theorem C8_witness :
    RunResult.ret
      ⟨fullTraceCmds envW didvA (.oneDim [1, 2, 3]) false "" "", didvA,
        none⟩ =
      none :=
  (C8_module_interface envW didvA .all 0 false "" "").2.2.2.1
    ⟨fullTraceCmds envW didvA (.oneDim [1, 2, 3]) false "" "", didvA,
      none⟩
    (plot_full_trace_run envW didvA .all false "" "" (by decide))

/-- Counterexample to claim C9 as stated: with a scalar `poles` argument
and the 2-pole fit stored, `plot_full_trace` completes — `np.array(2)` is
zero-dimensional, but numpy implements `in` as `(arr == p).any()`, which
on a zero-dimensional array is the boolean `p == poles` and never raises —
and its trace contains the 2-pole fit curve, instead of every rendering
function failing with `TypeError`. -/
theorem C9_counterexample :
    plot_full_trace envW didvW (.scalar 2) false "" "" =
      .ok ⟨fullTraceCmds envW didvW (.zeroDim 2) false "" "", didvW,
        none⟩ ∧
    tdFitCurve envW didvW ⟨⟨7, []⟩, 3⟩ (poleLbl 2) ∈
      fullTraceCmds envW didvW (.zeroDim 2) false "" "" :=
  ⟨plot_full_trace_run envW didvW (.scalar 2) false "" "" (by decide),
   List.mem_append.mpr (Or.inl (List.mem_append.mpr (Or.inl
     (tdCmds_scalar_fit_mem envW didvW 2 2 ⟨⟨7, []⟩, 3⟩
       (Or.inr (Or.inl rfl)) (by decide) rfl))))⟩

/-- Claim C9 as amended: a scalar `poles` argument makes `np.array(poles)`
a zero-dimensional array, but the membership test `p in poleslist` does
not raise: numpy implements it as `(arr == p).any()`, which on a
zero-dimensional array is the boolean `p == poles`.  Consequently, on
well-formed plottable input every rendering function completes, drawing no
curve for any pole number different from the scalar and drawing the curve
of the pole number equal to the scalar whenever its fit result is
stored. -/
theorem C9_scalar_poles_selects (env : Env) (didv : DIDV) (n : Int)
    (zf : ℚ) (lg : Bool) (sp sn : String)
    (hwf : WellFormed didv) (hfp : FreqPlottable env didv) :
    npArray (.scalar n) = .zeroDim n ∧
    (∃ r, plot_full_trace env didv (.scalar n) lg sp sn = .ok r ∧
      ScalarPolesSelects didv n r.events) ∧
    (∃ r, plot_single_period_of_trace env didv (.scalar n) lg sp sn =
      .ok r ∧ ScalarPolesSelects didv n r.events) ∧
    (∃ r, plot_zoomed_in_trace env didv (.scalar n) zf lg sp sn =
      .ok r ∧ ScalarPolesSelects didv n r.events) ∧
    (∃ r, plot_didv_flipped env didv (.scalar n) lg sp sn = .ok r ∧
      ScalarPolesSelects didv n r.events) ∧
    (∃ r, plot_re_im_didv env didv (.scalar n) lg sp sn = .ok r ∧
      ScalarPolesSelects didv n r.events) ∧
    (∃ r, plot_abs_phase_didv env didv (.scalar n) lg sp sn = .ok r ∧
      ScalarPolesSelects didv n r.events) := by
  obtain ⟨ht, htm, hf, hlm, hls, hsg⟩ := hwf
  obtain ⟨hfit, hlow⟩ := hfp
  refine
    ⟨rfl,
    ⟨_, plot_full_trace_run env didv (.scalar n) lg sp sn ht, ?_⟩,
    ⟨_, plot_single_period_run env didv (.scalar n) lg sp sn ht hsg,
      ?_⟩,
    ⟨_, plot_zoomed_run env didv (.scalar n) zf lg sp sn ht hsg, ?_⟩,
    ⟨_, plot_flipped_run env didv (.scalar n) lg sp sn hsg, ?_⟩,
    ⟨_, plot_re_im_run env didv (.scalar n) lg sp sn hlm hfit hlow,
      ?_⟩,
    ⟨_, plot_abs_phase_run env didv (.scalar n) lg sp sn hlm hfit hlow,
      ?_⟩⟩
  · exact ScalarPolesSelects_td env didv n _
      (by intro e he p hp
          simp only [List.mem_cons, List.mem_singleton,
            List.not_mem_nil, or_false] at he
          rcases he with rfl | rfl <;> simp [cmdLabel])
      lg (sp ++ "full_trace_" ++ sn ++ ".png")
  · exact ScalarPolesSelects_td env didv n _
      (by intro e he p hp
          simp only [List.mem_cons, List.mem_singleton,
            List.not_mem_nil, or_false] at he
          rcases he with rfl | rfl <;> simp [cmdLabel])
      lg (sp ++ "trace_one_period_" ++ sn ++ ".png")
  · exact ScalarPolesSelects_td env didv n _
      (by intro e he p hp
          simp only [List.mem_cons, List.mem_singleton,
            List.not_mem_nil, or_false] at he
          rcases he with rfl | rfl <;> simp [cmdLabel])
      lg (sp ++ "zoomed_in_trace_" ++ sn ++ ".png")
  · exact ScalarPolesSelects_td env didv n _
      (by intro e he p hp
          simp only [List.mem_cons, List.mem_singleton,
            List.not_mem_nil, or_false] at he
          rcases he with rfl | rfl
          · rcases hp with rfl | rfl | rfl <;> simp [cmdLabel, poleLbl]
          · simp [cmdLabel])
      lg (sp ++ "flipped_trace_" ++ sn ++ ".png")
  · exact ScalarPolesSelects_append didv n _ _
      (fun p hp hne e he => reimFigCmds_scalar_no_other env didv n _
        Cplx.re "Real Part of dIdV"
        (sp ++ "didv_real_" ++ sn ++ ".png") lg p hp hne e he)
      (fun p hp hne e he => reimFigCmds_scalar_no_other env didv n _
        Cplx.im "Imaginary Part of dIdV"
        (sp ++ "didv_imag_" ++ sn ++ ".png") lg p hp hne e he)
      (fun p fr hp hn hfr =>
        ⟨fdFitCurve env didv fr Cplx.re (poleLbl p),
          reimFigCmds_scalar_fit_mem env didv n _ Cplx.re
            "Real Part of dIdV" (sp ++ "didv_real_" ++ sn ++ ".png")
            lg p fr hp hn hfr, rfl⟩)
  · exact ScalarPolesSelects_append didv n _ _
      (fun p hp hne e he => absFigCmds_scalar_no_other env didv n
        (sp ++ "didv_abs_" ++ sn ++ ".png") lg p hp hne e he)
      (fun p hp hne e he => phaseFigCmds_scalar_no_other env didv n _
        (sp ++ "didv_phase_" ++ sn ++ ".png") lg p hp hne e he)
      (fun p fr hp hn hfr =>
        ⟨fdFitCurve env didv fr env.npabs (poleLbl p),
          absFigCmds_scalar_fit_mem env didv n
            (sp ++ "didv_abs_" ++ sn ++ ".png") lg p fr hp hn hfr,
          rfl⟩)

/-- Witness for the amended C9: with the 2-pole fit stored and scalar
`poles = 2`, every rendering function completes and plots exactly the
2-pole fit among the pole curves. -/
theorem C9_witness :
    npArray (.scalar 2) = .zeroDim 2 ∧
    (∃ r, plot_full_trace envW didvW (.scalar 2) false "" "" = .ok r ∧
      ScalarPolesSelects didvW 2 r.events) ∧
    (∃ r, plot_single_period_of_trace envW didvW (.scalar 2) false ""
      "" = .ok r ∧ ScalarPolesSelects didvW 2 r.events) ∧
    (∃ r, plot_zoomed_in_trace envW didvW (.scalar 2) (1 / 10) false ""
      "" = .ok r ∧ ScalarPolesSelects didvW 2 r.events) ∧
    (∃ r, plot_didv_flipped envW didvW (.scalar 2) false "" "" =
      .ok r ∧ ScalarPolesSelects didvW 2 r.events) ∧
    (∃ r, plot_re_im_didv envW didvW (.scalar 2) false "" "" = .ok r ∧
      ScalarPolesSelects didvW 2 r.events) ∧
    (∃ r, plot_abs_phase_didv envW didvW (.scalar 2) false "" "" =
      .ok r ∧ ScalarPolesSelects didvW 2 r.events) :=
  C9_scalar_poles_selects envW didvW 2 (1 / 10) false "" "" (by decide)
    (by decide)

end DidvPlotting
